import Mathlib

/-!
# CPUIDParser

A shallow embedding of `definitions.hpp` and `main.cpp`.

* 32-bit unsigned objects are natural numbers; every place where the C++ code
  stores into a `uint32_t` reduces modulo `2 ^ 32` when the value could exceed it.
* The `cpuid` instruction is a parameter `hw : Cpuid`: a function from the leaf
  (input `eax`) and the sub-leaf (input `ecx`) to the four output registers.
* The `uint32_t` objects that a `uint32_t *` can point to are the locations `Loc`;
  a possibly null pointer is an `Option Loc`.
* Two ghost lists record the calls made to `getCpuid` and the `cpuid`
  instructions really executed.
* `printInfo` returns the texts it writes to the standard output.
* The definitions under "The specification side" (`specTable`, `specClassify`,
  `generationName`, `CpuVersion.pack`) follow the specification's words and are
  what the code is compared with.
-/

namespace CPUIDParser

/-! ## definitions.hpp -/

/-- Bit-fields of `struct CpuVersion`, read from the raw word that shares the
union with it.  The layout is the one of the x86-64 ABI the inline assembly
targets: the first declared field occupies the least significant bits. -/
def CpuVersion.stepping (raw : Nat) : Nat := raw &&& 0xF

/-- Field `model : 4`, bits 4..7. -/
def CpuVersion.model (raw : Nat) : Nat := (raw >>> 4) &&& 0xF

/-- Field `family : 4`, bits 8..11. -/
def CpuVersion.family (raw : Nat) : Nat := (raw >>> 8) &&& 0xF

/-- Field `type : 2`, bits 12..13. -/
def CpuVersion.type (raw : Nat) : Nat := (raw >>> 12) &&& 0x3

/-- Field `reserved1 : 2`, bits 14..15. -/
def CpuVersion.reserved1 (raw : Nat) : Nat := (raw >>> 14) &&& 0x3

/-- Field `extendedModel : 4`, bits 16..19. -/
def CpuVersion.extendedModel (raw : Nat) : Nat := (raw >>> 16) &&& 0xF

/-- Field `extendedFamily : 8`, bits 20..27. -/
def CpuVersion.extendedFamily (raw : Nat) : Nat := (raw >>> 20) &&& 0xFF

/-- Field `reserved2 : 4`, bits 28..31. -/
def CpuVersion.reserved2 (raw : Nat) : Nat := (raw >>> 28) &&& 0xF

/-! The enumerators of `enum CpuModel`. -/

def CPU_MODEL_UNKNOWN : Nat := 0x00
def CPU_MODEL_PENRYN : Nat := 0x17
def CPU_MODEL_NEHALEM : Nat := 0x1A
def CPU_MODEL_FIELDS : Nat := 0x1E
def CPU_MODEL_DALES : Nat := 0x1F
def CPU_MODEL_NEHALEM_EX : Nat := 0x2E
def CPU_MODEL_DALES_32NM : Nat := 0x25
def CPU_MODEL_WESTMERE : Nat := 0x2C
def CPU_MODEL_WESTMERE_EX : Nat := 0x2F
def CPU_MODEL_SANDYBRIDGE : Nat := 0x2A
def CPU_MODEL_JAKETOWN : Nat := 0x2D
def CPU_MODEL_IVYBRIDGE : Nat := 0x3A
def CPU_MODEL_IVYBRIDGE_EP : Nat := 0x3E
def CPU_MODEL_CRYSTALWELL : Nat := 0x46
def CPU_MODEL_HASWELL : Nat := 0x3C
def CPU_MODEL_HASWELL_EP : Nat := 0x3F
def CPU_MODEL_HASWELL_ULT : Nat := 0x45
def CPU_MODEL_BROADWELL : Nat := 0x3D
def CPU_MODEL_BROADWELL_ULX : Nat := 0x3D
def CPU_MODEL_BROADWELL_ULT : Nat := 0x3D
def CPU_MODEL_BRYSTALWELL : Nat := 0x47
def CPU_MODEL_SKYLAKE : Nat := 0x4E
def CPU_MODEL_SKYLAKE_ULT : Nat := 0x4E
def CPU_MODEL_SKYLAKE_ULX : Nat := 0x4E
def CPU_MODEL_SKYLAKE_DT : Nat := 0x5E
def CPU_MODEL_SKYLAKE_W : Nat := 0x55
def CPU_MODEL_KABYLAKE : Nat := 0x8E
def CPU_MODEL_KABYLAKE_ULT : Nat := 0x8E
def CPU_MODEL_KABYLAKE_ULX : Nat := 0x8E
def CPU_MODEL_KABYLAKE_DT : Nat := 0x9E
def CPU_MODEL_CANNONLAKE : Nat := 0x66
def CPU_MODEL_ICELAKE_Y : Nat := 0x7D
def CPU_MODEL_ICELAKE_U : Nat := 0x7E
def CPU_MODEL_ICELAKE_SP : Nat := 0x9F
def CPU_MODEL_COMETLAKE_S : Nat := 0xA5
def CPU_MODEL_COMETLAKE_Y : Nat := 0xA5
def CPU_MODEL_COMETLAKE_U : Nat := 0xA6

/-- Known CPU vendors (`enum class CpuVendor`). -/
inductive CpuVendor
  | Unknown
  | AMD
  | Intel
  deriving DecidableEq, Repr

/-- Intel CPU generations (`enum class CpuGeneration`). -/
inductive CpuGeneration
  | Unknown
  | Penryn
  | Nehalem
  | Westmere
  | SandyBridge
  | IvyBridge
  | Haswell
  | Broadwell
  | Skylake
  | KabyLake
  | CoffeeLake
  | CannonLake
  | IceLake
  | CometLake
  | MaxGeneration
  deriving DecidableEq, Repr

/-! The vendor signature words. -/

def signature_INTEL_ebx : Nat := 0x756e6547
def signature_INTEL_edx : Nat := 0x49656e69
def signature_INTEL_ecx : Nat := 0x6c65746e

def signature_AMD_ebx : Nat := 0x68747541
def signature_AMD_edx : Nat := 0x69746e65
def signature_AMD_ecx : Nat := 0x444d4163

/-! ## main.cpp: the program state -/

/-- The `uint32_t` objects of the program: the five `uint32_t` globals, and
`stack n` for any other object (the automatic variables of a caller). -/
inductive Loc
  | cpuFamily
  | cpuModel
  | cpuStepping
  | cpuMaxLevel
  | cpuMaxLevelExt
  | stack (slot : Nat)
  deriving DecidableEq, Repr

/-- The globals of `main.cpp`, the memory holding the `uint32_t` objects, and
the two ghost lists: `calls` holds the `(no, count)` of every call of
`getCpuid`, `issued` the `(eax, ecx)` inputs of every executed `cpuid`. -/
structure State where
  cpuVendor : CpuVendor
  cpuGeneration : CpuGeneration
  cpuGenerationText : String
  mem : Loc → Nat
  calls : List (Nat × Nat)
  issued : List (Nat × Nat)

/-- Global `cpuFamily`. -/
def State.cpuFamily (s : State) : Nat := s.mem Loc.cpuFamily

/-- Global `cpuModel`. -/
def State.cpuModel (s : State) : Nat := s.mem Loc.cpuModel

/-- Global `cpuStepping`. -/
def State.cpuStepping (s : State) : Nat := s.mem Loc.cpuStepping

/-- Global `cpuMaxLevel`. -/
def State.cpuMaxLevel (s : State) : Nat := s.mem Loc.cpuMaxLevel

/-- Global `cpuMaxLevelExt`. -/
def State.cpuMaxLevelExt (s : State) : Nat := s.mem Loc.cpuMaxLevelExt

/-- Assignment `*l = v` to a `uint32_t` object. -/
def State.assign (s : State) (l : Loc) (v : Nat) : State :=
  { s with mem := fun x => if x = l then v else s.mem x }

/-- Guarded store `if (p) *p = v;` through a possibly null pointer. -/
def State.store (s : State) (p : Option Loc) (v : Nat) : State :=
  match p with
  | none => s
  | some l => s.assign l v

/-- The globals as initialised at lines 4-11 of `main.cpp`; every other
`uint32_t` object reads 0. -/
def initial : State where
  cpuVendor := CpuVendor.Unknown
  cpuGeneration := CpuGeneration.Unknown
  cpuGenerationText := "Unknown"
  mem := fun l => if l = Loc.cpuMaxLevelExt then 0x80000000 else 0
  calls := []
  issued := []

/-! ## main.cpp: `getCpuid` -/

/-- The four output registers of one `cpuid` execution. -/
structure Regs where
  eax : Nat
  ebx : Nat
  ecx : Nat
  edx : Nat
  deriving DecidableEq, Repr

/-- The hardware: `hw leaf subleaf` is what `cpuid` leaves in the registers. -/
abbrev Cpuid := Nat → Nat → Regs

/-- The registers as captured into the four `uint32_t` variables. -/
def Regs.wrap (r : Regs) : Regs :=
  ⟨r.eax % 2 ^ 32, r.ebx % 2 ^ 32, r.ecx % 2 ^ 32, r.edx % 2 ^ 32⟩

/-- The support test of line 16:
`(no & 0x80000000) ? cpuMaxLevelExt >= no : cpuMaxLevel >= no`. -/
def supported (s : State) (no : Nat) : Bool :=
  if no &&& 0x80000000 ≠ 0 then decide (s.cpuMaxLevelExt ≥ no) else decide (s.cpuMaxLevel ≥ no)

/-- The variables `eax, ebx, ecx, edx` of `getCpuid` at line 26: zero from
their initialisers, or the captured outputs when the `asm` block has run. -/
def getCpuid.regs (hw : Cpuid) (no count : Nat) (s : State) : Regs :=
  if supported s no then (hw no count).wrap else ⟨0, 0, 0, 0⟩

/-- Function `getCpuid` (lines 13-33): returns the flag and the new state. -/
def getCpuid (hw : Cpuid) (no count : Nat) (a b c d : Option Loc) (s : State) :
    Bool × State :=
  let sup := supported s no
  let r : Regs := getCpuid.regs hw no count s
  let s := { s with
    calls := s.calls ++ [(no, count)]
    issued := if sup then s.issued ++ [(no, count)] else s.issued }
  let s := s.store a r.eax
  let s := s.store b r.ebx
  let s := s.store c r.ecx
  let s := s.store d r.edx
  (sup, s)

/-! ## main.cpp: `parseCPUID` -/

/-- The pair of assignments made by every labelled group of the `switch`. -/
def State.setGeneration (s : State) (g : CpuGeneration) (text : String) : State :=
  { s with cpuGeneration := g, cpuGenerationText := text }

/-- The `switch (cpuModel)` of lines 68-143; `stepping` is `ver.fmt.stepping`. -/
def switchModel (stepping : Nat) (s : State) : State :=
  let m := s.cpuModel
  if m = CPU_MODEL_PENRYN then
    s.setGeneration CpuGeneration.Penryn "Penryn"
  else if m = CPU_MODEL_NEHALEM ∨ m = CPU_MODEL_FIELDS ∨ m = CPU_MODEL_DALES
      ∨ m = CPU_MODEL_NEHALEM_EX then
    s.setGeneration CpuGeneration.Nehalem "Nehalem"
  else if m = CPU_MODEL_DALES_32NM ∨ m = CPU_MODEL_WESTMERE ∨ m = CPU_MODEL_WESTMERE_EX then
    s.setGeneration CpuGeneration.Westmere "Westmere"
  else if m = CPU_MODEL_SANDYBRIDGE ∨ m = CPU_MODEL_JAKETOWN then
    s.setGeneration CpuGeneration.SandyBridge "Sandy Bridge"
  else if m = CPU_MODEL_IVYBRIDGE ∨ m = CPU_MODEL_IVYBRIDGE_EP then
    s.setGeneration CpuGeneration.IvyBridge "Ivy Bridge"
  else if m = CPU_MODEL_HASWELL ∨ m = CPU_MODEL_HASWELL_EP ∨ m = CPU_MODEL_HASWELL_ULT
      ∨ m = CPU_MODEL_CRYSTALWELL then
    s.setGeneration CpuGeneration.Haswell "Haswell"
  else if m = CPU_MODEL_BROADWELL ∨ m = CPU_MODEL_BRYSTALWELL then
    s.setGeneration CpuGeneration.Broadwell "Broadwell"
  else if m = CPU_MODEL_SKYLAKE ∨ m = CPU_MODEL_SKYLAKE_DT ∨ m = CPU_MODEL_SKYLAKE_W then
    s.setGeneration CpuGeneration.Skylake "Skylake"
  else if m = CPU_MODEL_KABYLAKE ∨ m = CPU_MODEL_KABYLAKE_DT then
    if stepping = 9 then
      s.setGeneration CpuGeneration.KabyLake "Kaby Lake"
    else
      s.setGeneration CpuGeneration.CoffeeLake "Coffee Lake"
  else if m = CPU_MODEL_CANNONLAKE then
    s.setGeneration CpuGeneration.CannonLake "Cannon Lake"
  else if m = CPU_MODEL_ICELAKE_Y ∨ m = CPU_MODEL_ICELAKE_U ∨ m = CPU_MODEL_ICELAKE_SP then
    s.setGeneration CpuGeneration.IceLake "Ice Lake"
  else if m = CPU_MODEL_COMETLAKE_Y ∨ m = CPU_MODEL_COMETLAKE_U then
    s.setGeneration CpuGeneration.CometLake "Comet Lake"
  else
    { s with cpuGeneration := CpuGeneration.Unknown }

/-- The automatic variables of `parseCPUID`. -/
def parseCPUID.b : Loc := Loc.stack 0
def parseCPUID.c : Loc := Loc.stack 1
def parseCPUID.d : Loc := Loc.stack 2
def parseCPUID.ver : Loc := Loc.stack 3

/-- Lines 37-44 of `parseCPUID`: vendor detection and the two maxima. -/
def parseCPUID.detect (hw : Cpuid) (s : State) : State :=
  let s := ((s.assign parseCPUID.b 0).assign parseCPUID.c 0).assign parseCPUID.d 0
  let s := (getCpuid hw 0 0 (some Loc.cpuMaxLevel) (some parseCPUID.b) (some parseCPUID.c)
    (some parseCPUID.d) s).2
  let s :=
    if s.mem parseCPUID.b = signature_INTEL_ebx ∧ s.mem parseCPUID.c = signature_INTEL_ecx
        ∧ s.mem parseCPUID.d = signature_INTEL_edx then
      { s with cpuVendor := CpuVendor.Intel }
    else if s.mem parseCPUID.b = signature_AMD_ebx ∧ s.mem parseCPUID.c = signature_AMD_ecx
        ∧ s.mem parseCPUID.d = signature_AMD_edx then
      { s with cpuVendor := CpuVendor.AMD }
    else s
  (getCpuid hw 0x80000000 0 (some Loc.cpuMaxLevelExt) none none none s).2

/-- Lines 50-63 of `parseCPUID`: the query of leaf 1 into `ver.raw` and the
family, model and stepping computed from the bit-fields of `ver.fmt`. -/
def parseCPUID.version (hw : Cpuid) (s : State) : State :=
  let s := s.assign parseCPUID.ver 0
  let s := (getCpuid hw 1 0 (some parseCPUID.ver) none none none s).2
  let s := s.assign Loc.cpuFamily (CpuVersion.family (s.mem parseCPUID.ver))
  let s :=
    if s.cpuFamily = 15 then
      s.assign Loc.cpuFamily
        ((s.cpuFamily + CpuVersion.extendedFamily (s.mem parseCPUID.ver)) % 2 ^ 32)
    else s
  let s := s.assign Loc.cpuModel (CpuVersion.model (s.mem parseCPUID.ver))
  let s :=
    if s.cpuFamily = 15 ∨ s.cpuFamily = 6 then
      s.assign Loc.cpuModel
        ((s.cpuModel ||| (CpuVersion.extendedModel (s.mem parseCPUID.ver) <<< 4)) % 2 ^ 32)
    else s
  s.assign Loc.cpuStepping (CpuVersion.stepping (s.mem parseCPUID.ver))

/-- Function `parseCPUID` (lines 35-145). -/
def parseCPUID (hw : Cpuid) (s : State) : State :=
  let s := parseCPUID.detect hw s
  if s.cpuVendor ≠ CpuVendor.Intel ∨ s.cpuMaxLevel < 1 then s
  else
    let s := parseCPUID.version hw s
    if CpuVersion.family (s.mem parseCPUID.ver) = 6 then
      switchModel (CpuVersion.stepping (s.mem parseCPUID.ver)) s
    else s

/-! ## main.cpp: `printInfo` -/

/-- The ordinal of an enumerator of `enum class CpuGeneration`, which is what
`printf` receives for `%d`. -/
def CpuGeneration.toNat : CpuGeneration → Nat
  | CpuGeneration.Unknown => 0
  | CpuGeneration.Penryn => 1
  | CpuGeneration.Nehalem => 2
  | CpuGeneration.Westmere => 3
  | CpuGeneration.SandyBridge => 4
  | CpuGeneration.IvyBridge => 5
  | CpuGeneration.Haswell => 6
  | CpuGeneration.Broadwell => 7
  | CpuGeneration.Skylake => 8
  | CpuGeneration.KabyLake => 9
  | CpuGeneration.CoffeeLake => 10
  | CpuGeneration.CannonLake => 11
  | CpuGeneration.IceLake => 12
  | CpuGeneration.CometLake => 13
  | CpuGeneration.MaxGeneration => 14

/-- Conversion `%x` of a 32-bit argument: lower-case hexadecimal digits. -/
def fmtHex (n : Nat) : String := String.mk (Nat.toDigits 16 (n % 2 ^ 32))

/-- Conversion `%d` of a 32-bit argument: the word read as a signed `int`. -/
def fmtDec (n : Nat) : String :=
  if n % 2 ^ 32 < 2 ^ 31 then toString (n % 2 ^ 32)
  else "-" ++ toString (2 ^ 32 - n % 2 ^ 32)

/-- The `%s` argument of line 148:
`(cpuVendor == CpuVendor::Intel) ? "Intel" : "AMD"`. -/
def printInfo.vendorLabel (s : State) : String :=
  if s.cpuVendor = CpuVendor.Intel then "Intel" else "AMD"

/-- Function `printInfo` (lines 147-160): the texts written to the standard
output, one per `printf` call, in order. -/
def printInfo (s : State) : List String :=
  let out :=
    [ "CPU vendor: " ++ printInfo.vendorLabel s ++ "\n",
      "CPU max level: 0x" ++ fmtHex s.cpuMaxLevel ++ "\n",
      "CPU max level (ext): 0x" ++ fmtHex s.cpuMaxLevelExt ++ "\n" ]
  if s.cpuVendor ≠ CpuVendor.Intel ∨ s.cpuMaxLevel < 1 then out
  else
    out ++
    [ "CPU family: " ++ fmtDec s.cpuFamily ++ "\n",
      "CPU model: " ++ fmtDec s.cpuModel ++ "\n",
      "CPU stepping: 0x" ++ fmtHex s.cpuStepping ++ "\n",
      "CPU generation: " ++ fmtDec s.cpuGeneration.toNat ++ " (" ++ s.cpuGenerationText
        ++ ")\n" ]

/-- A processor answering leaf 0 with the Intel signature and `maxLevel`, leaf
`0x80000000` with `maxExt`, and leaf 1 with the version word `w`. -/
def intelHw (maxLevel maxExt w : Nat) : Cpuid := fun leaf _ =>
  if leaf = 0 then ⟨maxLevel, signature_INTEL_ebx, signature_INTEL_ecx, signature_INTEL_edx⟩
  else if leaf = 0x80000000 then ⟨maxExt, 0, 0, 0⟩
  else if leaf = 1 then ⟨w, 0, 0, 0⟩
  else ⟨0, 0, 0, 0⟩

/-- A processor answering leaf 0 with the AMD signature and `maxLevel`, leaf
`0x80000000` with `maxExt`, and leaf 1 with the version word `w`. -/
def amdHw (maxLevel maxExt w : Nat) : Cpuid := fun leaf _ =>
  if leaf = 0 then ⟨maxLevel, signature_AMD_ebx, signature_AMD_ecx, signature_AMD_edx⟩
  else if leaf = 0x80000000 then ⟨maxExt, 0, 0, 0⟩
  else if leaf = 1 then ⟨w, 0, 0, 0⟩
  else ⟨0, 0, 0, 0⟩

/-- The value of `cpuFamily` after lines 57-58, as a function of the raw word. -/
def computedFamily (raw : Nat) : Nat :=
  if CpuVersion.family raw = 15 then
    (CpuVersion.family raw + CpuVersion.extendedFamily raw) % 2 ^ 32
  else CpuVersion.family raw

/-- The value of `cpuModel` after lines 60-62, as a function of the raw word. -/
def computedModel (raw : Nat) : Nat :=
  if computedFamily raw = 15 ∨ computedFamily raw = 6 then
    (CpuVersion.model raw ||| (CpuVersion.extendedModel raw <<< 4)) % 2 ^ 32
  else CpuVersion.model raw

/-! ## The specification side -/

/-- The static model-to-generation table as the specification prints it, one
row per generation, without the row shared by Kaby Lake and Coffee Lake. -/
def specTable : List (CpuGeneration × List Nat) :=
  [ (CpuGeneration.Penryn, [0x17]),
    (CpuGeneration.Nehalem, [0x1A, 0x1E, 0x1F, 0x2E]),
    (CpuGeneration.Westmere, [0x25, 0x2C, 0x2F]),
    (CpuGeneration.SandyBridge, [0x2A, 0x2D]),
    (CpuGeneration.IvyBridge, [0x3A, 0x3E]),
    (CpuGeneration.Haswell, [0x3C, 0x3F, 0x45, 0x46]),
    (CpuGeneration.Broadwell, [0x3D, 0x47]),
    (CpuGeneration.Skylake, [0x4E, 0x5E, 0x55]),
    (CpuGeneration.CannonLake, [0x66]),
    (CpuGeneration.IceLake, [0x7D, 0x7E, 0x9F]),
    (CpuGeneration.CometLake, [0xA5, 0xA6]) ]

/-- Lookup in a table of rows: the generation of the first row listing `m`,
`Unknown` when no row lists it. -/
def lookupRow (m : Nat) : List (CpuGeneration × List Nat) → CpuGeneration
  | [] => CpuGeneration.Unknown
  | row :: rest => if m ∈ row.2 then row.1 else lookupRow m rest

/-- The generation the specification's table gives to the model code `m`. -/
def specGeneration (m : Nat) : CpuGeneration := lookupRow m specTable

/-- The generation the specification gives to a base family, a computed model
and a stepping: Unknown unless the base family is 6; for the model codes `0x8E`
and `0x9E` Kaby Lake at stepping 9 and Coffee Lake otherwise; else the table. -/
def specClassify (family model stepping : Nat) : CpuGeneration :=
  if family = 6 then
    if model = 0x8E ∨ model = 0x9E then
      if stepping = 9 then CpuGeneration.KabyLake else CpuGeneration.CoffeeLake
    else specGeneration model
  else CpuGeneration.Unknown

/-- The name of each generation; the sentinel `MaxGeneration` has none. -/
def generationName : CpuGeneration → Option String
  | CpuGeneration.Unknown => some "Unknown"
  | CpuGeneration.Penryn => some "Penryn"
  | CpuGeneration.Nehalem => some "Nehalem"
  | CpuGeneration.Westmere => some "Westmere"
  | CpuGeneration.SandyBridge => some "Sandy Bridge"
  | CpuGeneration.IvyBridge => some "Ivy Bridge"
  | CpuGeneration.Haswell => some "Haswell"
  | CpuGeneration.Broadwell => some "Broadwell"
  | CpuGeneration.Skylake => some "Skylake"
  | CpuGeneration.KabyLake => some "Kaby Lake"
  | CpuGeneration.CoffeeLake => some "Coffee Lake"
  | CpuGeneration.CannonLake => some "Cannon Lake"
  | CpuGeneration.IceLake => some "Ice Lake"
  | CpuGeneration.CometLake => some "Comet Lake"
  | CpuGeneration.MaxGeneration => none

/-- The widths of the eight bit-fields of `struct CpuVersion`, in declaration
order. -/
def CpuVersion.widths : List Nat := [4, 4, 4, 2, 2, 4, 8, 4]

/-- The word holding the eight field values at the offsets 0, 4, 8, 12, 14,
16, 20 and 28. -/
def CpuVersion.pack (stepping model family type reserved1 extendedModel extendedFamily
    reserved2 : Nat) : Nat :=
  stepping ||| (model <<< 4) ||| (family <<< 8) ||| (type <<< 12) ||| (reserved1 <<< 14)
    ||| (extendedModel <<< 16) ||| (extendedFamily <<< 20) ||| (reserved2 <<< 28)

/-- The four little-endian bytes of a 32-bit word, lowest first. -/
def leBytes (w : Nat) : List Nat :=
  [w % 256, w / 256 % 256, w / 65536 % 256, w / 16777216 % 256]

/-- The ASCII codes of the characters of a string. -/
def asciiBytes (t : String) : List Nat := t.toList.map Char.toNat

/-! ## Memory lemmas -/

theorem mem_assign (s : State) (l : Loc) (v : Nat) (x : Loc) :
    (s.assign l v).mem x = if x = l then v else s.mem x := rfl

theorem mem_store_none (s : State) (v : Nat) : s.store none v = s := rfl

theorem mem_store_some (s : State) (l : Loc) (v : Nat) (x : Loc) :
    (s.store (some l) v).mem x = if x = l then v else s.mem x := rfl

theorem mem_store_of_ne (s : State) (p : Option Loc) (v : Nat) (x : Loc) (h : p ≠ some x) :
    (s.store p v).mem x = s.mem x := by
  cases p with
  | none => rfl
  | some l =>
    have hx : x ≠ l := fun e => h (by rw [e])
    simp [mem_store_some, hx]

theorem mem_store_of_eq (s : State) (p : Option Loc) (v : Nat) (x : Loc) (h : p = some x) :
    (s.store p v).mem x = v := by
  subst h
  simp [mem_store_some]

/-- Masking with `0x80000000` tests bit 31. -/
theorem and_high_bit (no : Nat) : no &&& 0x80000000 ≠ 0 ↔ no.testBit 31 = true := by
  have h : (0x80000000 : Nat) = 2 ^ 31 := by norm_num
  rw [h, Nat.and_two_pow]
  cases no.testBit 31 <;> simp

theorem supported_iff (s : State) (no : Nat) :
    supported s no = true ↔
      (no.testBit 31 = true ∧ s.cpuMaxLevelExt ≥ no)
        ∨ (no.testBit 31 = false ∧ s.cpuMaxLevel ≥ no) := by
  unfold supported
  by_cases hb : no.testBit 31 = true
  · have := (and_high_bit no).2 hb
    simp [this, hb]
  · have hn : ¬ (no &&& 0x80000000 ≠ 0) := fun h => hb ((and_high_bit no).1 h)
    have hb' : no.testBit 31 = false := by simpa using hb
    simp only [hn, if_false, hb']
    simp

theorem getCpuid_fst (hw : Cpuid) (no count : Nat) (a b c d : Option Loc) (s : State) :
    (getCpuid hw no count a b c d s).1 = supported s no := rfl

/-! ## Claims about `getCpuid` -/

/-- C1: `getCpuid` reports a leaf as supported exactly when bit 31 of the leaf
is set and `cpuMaxLevelExt >= no`, or bit 31 is clear and `cpuMaxLevel >= no`;
the answer for a standard leaf is the same in any state with the same
`cpuMaxLevel`, the answer for an extended leaf is the same in any state with
the same `cpuMaxLevelExt`, and a leaf equal to the maximum of its class is
supported. -/
theorem getCpuid_supported_iff (hw : Cpuid) (no count : Nat) (a b c d : Option Loc)
    (s : State) (hno : no < 2 ^ 32) :
    ((getCpuid hw no count a b c d s).1 = true ↔
      (no.testBit 31 = true ∧ s.cpuMaxLevelExt ≥ no)
        ∨ (no.testBit 31 = false ∧ s.cpuMaxLevel ≥ no))
    ∧ (∀ (hw' : Cpuid) (count' : Nat) (a' b' c' d' : Option Loc) (s' : State),
        no.testBit 31 = false → s'.cpuMaxLevel = s.cpuMaxLevel →
        (getCpuid hw' no count' a' b' c' d' s').1 = (getCpuid hw no count a b c d s).1)
    ∧ (∀ (hw' : Cpuid) (count' : Nat) (a' b' c' d' : Option Loc) (s' : State),
        no.testBit 31 = true → s'.cpuMaxLevelExt = s.cpuMaxLevelExt →
        (getCpuid hw' no count' a' b' c' d' s').1 = (getCpuid hw no count a b c d s).1)
    ∧ (no.testBit 31 = false → s.cpuMaxLevel = no → (getCpuid hw no count a b c d s).1 = true)
    ∧ (no.testBit 31 = true → s.cpuMaxLevelExt = no →
        (getCpuid hw no count a b c d s).1 = true) := by
  have _ := hno
  refine ⟨?_, ?_, ?_, ?_, ?_⟩
  · rw [getCpuid_fst]
    exact supported_iff s no
  · intro hw' count' a' b' c' d' s' hb he
    rw [getCpuid_fst, getCpuid_fst, Bool.eq_iff_iff, supported_iff, supported_iff]
    simp [hb, he]
  · intro hw' count' a' b' c' d' s' hb he
    rw [getCpuid_fst, getCpuid_fst, Bool.eq_iff_iff, supported_iff, supported_iff]
    simp [hb, he]
  · intro hb he
    rw [getCpuid_fst, supported_iff]
    exact Or.inr ⟨hb, by rw [he]⟩
  · intro hb he
    rw [getCpuid_fst, supported_iff]
    exact Or.inl ⟨hb, by rw [he]⟩

/-- C1, at `cpuMaxLevel = 5`: the standard leaf 3 is supported, leaf 5 too,
leaf 6 is not. -/
theorem getCpuid_supported_iff_witness :
    (3 : Nat) < 2 ^ 32
    ∧ (getCpuid (intelHw 5 0x80000008 0) 3 0 none none none none
        (initial.assign Loc.cpuMaxLevel 5)).1 = true
    ∧ (getCpuid (intelHw 5 0x80000008 0) 5 0 none none none none
        (initial.assign Loc.cpuMaxLevel 5)).1 = true
    ∧ (getCpuid (intelHw 5 0x80000008 0) 6 0 none none none none
        (initial.assign Loc.cpuMaxLevel 5)).1 = false :=
  ⟨by norm_num,
   ((getCpuid_supported_iff (intelHw 5 0x80000008 0) 3 0 none none none none
      (initial.assign Loc.cpuMaxLevel 5) (by norm_num)).1).2 (Or.inr ⟨by decide, by decide⟩),
   by decide, by decide⟩

theorem supported_eq_false_iff (s : State) (no : Nat) :
    supported s no = false ↔
      (no.testBit 31 = true ∧ s.cpuMaxLevelExt < no)
        ∨ (no.testBit 31 = false ∧ s.cpuMaxLevel < no) := by
  rw [← Bool.not_eq_true, supported_iff]
  cases hb : no.testBit 31 <;> simp

/-- The state after `getCpuid` when the leaf is not supported. -/
theorem getCpuid_snd_of_unsupported (hw : Cpuid) (no count : Nat) (a b c d : Option Loc)
    (s : State) (h : supported s no = false) :
    (getCpuid hw no count a b c d s).2 =
      (((({ s with calls := s.calls ++ [(no, count)] } : State).store a 0).store b 0).store c
        0).store d 0 := by
  simp [getCpuid, getCpuid.regs, h]

/-- The state after `getCpuid` when the leaf is supported. -/
theorem getCpuid_snd_of_supported (hw : Cpuid) (no count : Nat) (a b c d : Option Loc)
    (s : State) (h : supported s no = true) :
    (getCpuid hw no count a b c d s).2 =
      (((({ s with calls := s.calls ++ [(no, count)],
                   issued := s.issued ++ [(no, count)] } : State).store a
        (hw no count).wrap.eax).store b (hw no count).wrap.ebx).store c
        (hw no count).wrap.ecx).store d (hw no count).wrap.edx := by
  simp [getCpuid, getCpuid.regs, h]

theorem issued_store (s : State) (p : Option Loc) (v : Nat) :
    (s.store p v).issued = s.issued := by
  cases p <;> rfl

theorem calls_store (s : State) (p : Option Loc) (v : Nat) :
    (s.store p v).calls = s.calls := by
  cases p <;> rfl

theorem cpuVendor_store (s : State) (p : Option Loc) (v : Nat) :
    (s.store p v).cpuVendor = s.cpuVendor := by
  cases p <;> rfl

theorem cpuGeneration_store (s : State) (p : Option Loc) (v : Nat) :
    (s.store p v).cpuGeneration = s.cpuGeneration := by
  cases p <;> rfl

theorem cpuGenerationText_store (s : State) (p : Option Loc) (v : Nat) :
    (s.store p v).cpuGenerationText = s.cpuGenerationText := by
  cases p <;> rfl

/-- A location holds `v` after four guarded stores of `v` when one of the four
pointers is that location. -/
theorem mem_store4_same (s : State) (a b c d : Option Loc) (v : Nat) (l : Loc)
    (h : a = some l ∨ b = some l ∨ c = some l ∨ d = some l) :
    ((((s.store a v).store b v).store c v).store d v).mem l = v := by
  by_cases hd : d = some l
  · exact mem_store_of_eq _ _ _ _ hd
  rw [mem_store_of_ne _ _ _ _ hd]
  by_cases hc : c = some l
  · exact mem_store_of_eq _ _ _ _ hc
  rw [mem_store_of_ne _ _ _ _ hc]
  by_cases hb : b = some l
  · exact mem_store_of_eq _ _ _ _ hb
  rw [mem_store_of_ne _ _ _ _ hb]
  have ha : a = some l := by tauto
  exact mem_store_of_eq _ _ _ _ ha

/-- C2: when the leaf exceeds the known maximum of its class, `getCpuid`
returns false, executes no `cpuid` instruction, leaves 0 in every object one
of the four pointers designates, and its whole result is the same for any
hardware. -/
theorem getCpuid_unsupported (hw : Cpuid) (no count : Nat) (a b c d : Option Loc) (s : State)
    (h : (no.testBit 31 = true ∧ s.cpuMaxLevelExt < no)
      ∨ (no.testBit 31 = false ∧ s.cpuMaxLevel < no)) :
    (getCpuid hw no count a b c d s).1 = false
    ∧ (getCpuid hw no count a b c d s).2.issued = s.issued
    ∧ (∀ l : Loc, a = some l ∨ b = some l ∨ c = some l ∨ d = some l →
        (getCpuid hw no count a b c d s).2.mem l = 0)
    ∧ (∀ hw' : Cpuid, getCpuid hw' no count a b c d s = getCpuid hw no count a b c d s) := by
  have hs : supported s no = false := (supported_eq_false_iff s no).2 h
  refine ⟨hs, ?_, ?_, ?_⟩
  · rw [getCpuid_snd_of_unsupported hw no count a b c d s hs]
    simp [issued_store]
  · intro l hl
    rw [getCpuid_snd_of_unsupported hw no count a b c d s hs]
    exact mem_store4_same _ a b c d 0 l hl
  · intro hw'
    apply Prod.ext
    · rfl
    · rw [getCpuid_snd_of_unsupported hw no count a b c d s hs,
        getCpuid_snd_of_unsupported hw' no count a b c d s hs]

/-- C2, at `cpuMaxLevel = 0` and leaf 1, with every other object holding 7
before the call and a processor that would answer leaf 1 with `0x000406E9`:
the call returns false, nothing is executed and the four objects hold 0. -/
theorem getCpuid_unsupported_witness :
    (getCpuid (intelHw 0 0x80000008 0x000406E9) 1 0 (some (Loc.stack 0)) (some (Loc.stack 1))
        (some (Loc.stack 2)) (some (Loc.stack 3))
        { initial with mem := fun l => if l = Loc.cpuMaxLevel then 0 else 7 }).1 = false
    ∧ (getCpuid (intelHw 0 0x80000008 0x000406E9) 1 0 (some (Loc.stack 0)) (some (Loc.stack 1))
        (some (Loc.stack 2)) (some (Loc.stack 3))
        { initial with mem := fun l => if l = Loc.cpuMaxLevel then 0 else 7 }).2.issued = []
    ∧ ∀ l : Loc, some (Loc.stack 0) = some l ∨ some (Loc.stack 1) = some l
        ∨ some (Loc.stack 2) = some l ∨ some (Loc.stack 3) = some l →
        (getCpuid (intelHw 0 0x80000008 0x000406E9) 1 0 (some (Loc.stack 0))
          (some (Loc.stack 1)) (some (Loc.stack 2)) (some (Loc.stack 3))
          { initial with mem := fun l => if l = Loc.cpuMaxLevel then 0 else 7 }).2.mem l = 0 :=
  ⟨(getCpuid_unsupported (intelHw 0 0x80000008 0x000406E9) 1 0 (some (Loc.stack 0))
      (some (Loc.stack 1)) (some (Loc.stack 2)) (some (Loc.stack 3))
      { initial with mem := fun l => if l = Loc.cpuMaxLevel then 0 else 7 }
      (Or.inr ⟨by decide, by decide⟩)).1,
   (getCpuid_unsupported (intelHw 0 0x80000008 0x000406E9) 1 0 (some (Loc.stack 0))
      (some (Loc.stack 1)) (some (Loc.stack 2)) (some (Loc.stack 3))
      { initial with mem := fun l => if l = Loc.cpuMaxLevel then 0 else 7 }
      (Or.inr ⟨by decide, by decide⟩)).2.1,
   (getCpuid_unsupported (intelHw 0 0x80000008 0x000406E9) 1 0 (some (Loc.stack 0))
      (some (Loc.stack 1)) (some (Loc.stack 2)) (some (Loc.stack 3))
      { initial with mem := fun l => if l = Loc.cpuMaxLevel then 0 else 7 }
      (Or.inr ⟨by decide, by decide⟩)).2.2.1⟩

/-- The state `getCpuid` returns, as the four guarded stores of lines 27-30. -/
theorem getCpuid_snd (hw : Cpuid) (no count : Nat) (a b c d : Option Loc) (s : State) :
    (getCpuid hw no count a b c d s).2 =
      (((({ s with calls := s.calls ++ [(no, count)],
                   issued := if supported s no then s.issued ++ [(no, count)]
                     else s.issued } : State).store a
        (getCpuid.regs hw no count s).eax).store b (getCpuid.regs hw no count s).ebx).store c
        (getCpuid.regs hw no count s).ecx).store d (getCpuid.regs hw no count s).edx := rfl

theorem getCpuid_mem (hw : Cpuid) (no count : Nat) (a b c d : Option Loc) (s : State)
    (l : Loc) :
    (getCpuid hw no count a b c d s).2.mem l =
      if d = some l then (getCpuid.regs hw no count s).edx
      else if c = some l then (getCpuid.regs hw no count s).ecx
      else if b = some l then (getCpuid.regs hw no count s).ebx
      else if a = some l then (getCpuid.regs hw no count s).eax
      else s.mem l := by
  rw [getCpuid_snd]
  by_cases hd : d = some l
  · rw [if_pos hd, mem_store_of_eq _ _ _ _ hd]
  rw [if_neg hd, mem_store_of_ne _ _ _ _ hd]
  by_cases hc : c = some l
  · rw [if_pos hc, mem_store_of_eq _ _ _ _ hc]
  rw [if_neg hc, mem_store_of_ne _ _ _ _ hc]
  by_cases hb : b = some l
  · rw [if_pos hb, mem_store_of_eq _ _ _ _ hb]
  rw [if_neg hb, mem_store_of_ne _ _ _ _ hb]
  by_cases ha : a = some l
  · rw [if_pos ha, mem_store_of_eq _ _ _ _ ha]
  rw [if_neg ha, mem_store_of_ne _ _ _ _ ha]

theorem getCpuid_cpuVendor (hw : Cpuid) (no count : Nat) (a b c d : Option Loc) (s : State) :
    (getCpuid hw no count a b c d s).2.cpuVendor = s.cpuVendor := by
  simp [getCpuid_snd, cpuVendor_store]

theorem getCpuid_cpuGeneration (hw : Cpuid) (no count : Nat) (a b c d : Option Loc)
    (s : State) : (getCpuid hw no count a b c d s).2.cpuGeneration = s.cpuGeneration := by
  simp [getCpuid_snd, cpuGeneration_store]

theorem getCpuid_cpuGenerationText (hw : Cpuid) (no count : Nat) (a b c d : Option Loc)
    (s : State) :
    (getCpuid hw no count a b c d s).2.cpuGenerationText = s.cpuGenerationText := by
  simp [getCpuid_snd, cpuGenerationText_store]

/-- C3: `getCpuid` changes no object other than the ones the non-null pointers
designate (and none of the other globals); `d`'s object holds `edx`, `c`'s
holds `ecx`, `b`'s holds `ebx` and `a`'s holds `eax`, each unless a later
pointer designates the same object.  The register words are the ones of
`getCpuid.regs`: the captured outputs when supported, zero otherwise. -/
theorem getCpuid_outputs (hw : Cpuid) (no count : Nat) (a b c d : Option Loc) (s : State) :
    (∀ l : Loc, a ≠ some l → b ≠ some l → c ≠ some l → d ≠ some l →
        (getCpuid hw no count a b c d s).2.mem l = s.mem l)
    ∧ (∀ l : Loc, a = some l → b ≠ some l → c ≠ some l → d ≠ some l →
        (getCpuid hw no count a b c d s).2.mem l = (getCpuid.regs hw no count s).eax)
    ∧ (∀ l : Loc, b = some l → c ≠ some l → d ≠ some l →
        (getCpuid hw no count a b c d s).2.mem l = (getCpuid.regs hw no count s).ebx)
    ∧ (∀ l : Loc, c = some l → d ≠ some l →
        (getCpuid hw no count a b c d s).2.mem l = (getCpuid.regs hw no count s).ecx)
    ∧ (∀ l : Loc, d = some l →
        (getCpuid hw no count a b c d s).2.mem l = (getCpuid.regs hw no count s).edx)
    ∧ (supported s no = true → getCpuid.regs hw no count s =
        ⟨(hw no count).eax % 2 ^ 32, (hw no count).ebx % 2 ^ 32, (hw no count).ecx % 2 ^ 32,
          (hw no count).edx % 2 ^ 32⟩)
    ∧ (supported s no = false → getCpuid.regs hw no count s = ⟨0, 0, 0, 0⟩)
    ∧ (getCpuid hw no count a b c d s).2.cpuVendor = s.cpuVendor
    ∧ (getCpuid hw no count a b c d s).2.cpuGeneration = s.cpuGeneration
    ∧ (getCpuid hw no count a b c d s).2.cpuGenerationText = s.cpuGenerationText := by
  refine ⟨?_, ?_, ?_, ?_, ?_, ?_, ?_, getCpuid_cpuVendor hw no count a b c d s,
    getCpuid_cpuGeneration hw no count a b c d s,
    getCpuid_cpuGenerationText hw no count a b c d s⟩
  · intro l ha hb hc hd
    rw [getCpuid_mem, if_neg hd, if_neg hc, if_neg hb, if_neg ha]
  · intro l ha hb hc hd
    rw [getCpuid_mem, if_neg hd, if_neg hc, if_neg hb, if_pos ha]
  · intro l hb hc hd
    rw [getCpuid_mem, if_neg hd, if_neg hc, if_pos hb]
  · intro l hc hd
    rw [getCpuid_mem, if_neg hd, if_pos hc]
  · intro l hd
    rw [getCpuid_mem, if_pos hd]
  · intro h
    simp [getCpuid.regs, h, Regs.wrap]
  · intro h
    simp [getCpuid.regs, h]

/-- C3, at leaf 0 on a processor reporting maximum `0x16` and the Intel
signature, with only `a` and `c` supplied: `cpuMaxLevel` receives `eax`, the
object of `c` receives `ecx`, and the objects that `b` and `d` could have
designated keep the 7 they held. -/
theorem getCpuid_outputs_witness :
    (getCpuid (intelHw 0x16 0x80000008 0) 0 0 (some Loc.cpuMaxLevel) none (some (Loc.stack 1))
        none { initial with mem := fun l => if l = Loc.cpuMaxLevel then 0 else 7 }).2.mem
        Loc.cpuMaxLevel = (getCpuid.regs (intelHw 0x16 0x80000008 0) 0 0
          { initial with mem := fun l => if l = Loc.cpuMaxLevel then 0 else 7 }).eax
    ∧ (getCpuid.regs (intelHw 0x16 0x80000008 0) 0 0
          { initial with mem := fun l => if l = Loc.cpuMaxLevel then 0 else 7 }).eax = 0x16
    ∧ (getCpuid (intelHw 0x16 0x80000008 0) 0 0 (some Loc.cpuMaxLevel) none (some (Loc.stack 1))
        none { initial with mem := fun l => if l = Loc.cpuMaxLevel then 0 else 7 }).2.mem
        (Loc.stack 1) = signature_INTEL_ecx
    ∧ (getCpuid (intelHw 0x16 0x80000008 0) 0 0 (some Loc.cpuMaxLevel) none (some (Loc.stack 1))
        none { initial with mem := fun l => if l = Loc.cpuMaxLevel then 0 else 7 }).2.mem
        (Loc.stack 0) = 7
    ∧ (getCpuid (intelHw 0x16 0x80000008 0) 0 0 (some Loc.cpuMaxLevel) none (some (Loc.stack 1))
        none { initial with mem := fun l => if l = Loc.cpuMaxLevel then 0 else 7 }).2.mem
        (Loc.stack 2) = 7 :=
  ⟨(getCpuid_outputs (intelHw 0x16 0x80000008 0) 0 0 (some Loc.cpuMaxLevel) none
      (some (Loc.stack 1)) none
      { initial with mem := fun l => if l = Loc.cpuMaxLevel then 0 else 7 }).2.1
      Loc.cpuMaxLevel rfl (by decide) (by decide) (by decide),
   by decide, by decide,
   (getCpuid_outputs (intelHw 0x16 0x80000008 0) 0 0 (some Loc.cpuMaxLevel) none
      (some (Loc.stack 1)) none
      { initial with mem := fun l => if l = Loc.cpuMaxLevel then 0 else 7 }).1
      (Loc.stack 0) (by decide) (by decide) (by decide) (by decide),
   by decide⟩

/-! ## The three queries of `parseCPUID` -/

theorem supported_zero (s : State) : supported s 0 = true := by simp [supported]

theorem supported_extBase (s : State) :
    supported s 0x80000000 = decide (s.cpuMaxLevelExt ≥ 0x80000000) := by simp [supported]

theorem supported_one (s : State) : supported s 1 = decide (s.cpuMaxLevel ≥ 1) := by
  simp [supported]

theorem regs_zero (hw : Cpuid) (count : Nat) (s : State) :
    getCpuid.regs hw 0 count s = (hw 0 count).wrap := by
  simp [getCpuid.regs, supported_zero]

theorem regs_extBase (hw : Cpuid) (count : Nat) (s : State) :
    getCpuid.regs hw 0x80000000 count s =
      if s.mem Loc.cpuMaxLevelExt ≥ 0x80000000 then (hw 0x80000000 count).wrap
      else ⟨0, 0, 0, 0⟩ := by
  simp [getCpuid.regs, supported_extBase, State.cpuMaxLevelExt]

theorem regs_one (hw : Cpuid) (count : Nat) (s : State) :
    getCpuid.regs hw 1 count s =
      if s.mem Loc.cpuMaxLevel ≥ 1 then (hw 1 count).wrap else ⟨0, 0, 0, 0⟩ := by
  simp [getCpuid.regs, supported_one, State.cpuMaxLevel]

/-- The memory after lines 37-44. -/
theorem detect_mem (hw : Cpuid) (s : State) (l : Loc) :
    (parseCPUID.detect hw s).mem l =
      if l = Loc.cpuMaxLevelExt then
        (if s.cpuMaxLevelExt ≥ 0x80000000 then (hw 0x80000000 0).eax % 2 ^ 32 else 0)
      else if l = parseCPUID.d then (hw 0 0).edx % 2 ^ 32
      else if l = parseCPUID.c then (hw 0 0).ecx % 2 ^ 32
      else if l = parseCPUID.b then (hw 0 0).ebx % 2 ^ 32
      else if l = Loc.cpuMaxLevel then (hw 0 0).eax % 2 ^ 32
      else s.mem l := by
  unfold parseCPUID.detect
  simp only [getCpuid_mem, apply_ite State.mem, ite_self, regs_zero, regs_extBase, Regs.wrap,
    State.cpuMaxLevelExt, mem_assign, parseCPUID.b, parseCPUID.c, parseCPUID.d, reduceCtorEq,
    Option.some.injEq, if_false, apply_ite Regs.eax, eq_comm (a := l)]
  split_ifs <;> rfl

theorem detect_cpuVendor (hw : Cpuid) (s : State) :
    (parseCPUID.detect hw s).cpuVendor =
      if (hw 0 0).ebx % 2 ^ 32 = signature_INTEL_ebx ∧ (hw 0 0).ecx % 2 ^ 32 = signature_INTEL_ecx
          ∧ (hw 0 0).edx % 2 ^ 32 = signature_INTEL_edx then CpuVendor.Intel
      else if (hw 0 0).ebx % 2 ^ 32 = signature_AMD_ebx
          ∧ (hw 0 0).ecx % 2 ^ 32 = signature_AMD_ecx
          ∧ (hw 0 0).edx % 2 ^ 32 = signature_AMD_edx then CpuVendor.AMD
      else s.cpuVendor := by
  unfold parseCPUID.detect
  simp only [getCpuid_mem, getCpuid_cpuVendor, apply_ite State.cpuVendor, regs_zero, Regs.wrap,
    mem_assign, parseCPUID.b, parseCPUID.c, parseCPUID.d, reduceCtorEq,
    Option.some.injEq, if_false, if_true, Loc.stack.injEq, OfNat.ofNat_ne_one,
    Nat.reduceEqDiff]
  rfl

theorem detect_cpuGeneration (hw : Cpuid) (s : State) :
    (parseCPUID.detect hw s).cpuGeneration = s.cpuGeneration := by
  unfold parseCPUID.detect
  simp only [getCpuid_cpuGeneration, apply_ite State.cpuGeneration, ite_self]
  rfl

theorem detect_cpuGenerationText (hw : Cpuid) (s : State) :
    (parseCPUID.detect hw s).cpuGenerationText = s.cpuGenerationText := by
  unfold parseCPUID.detect
  simp only [getCpuid_cpuGenerationText, apply_ite State.cpuGenerationText, ite_self]
  rfl

theorem setGeneration_mem (s : State) (g : CpuGeneration) (t : String) :
    (s.setGeneration g t).mem = s.mem := rfl

theorem setGeneration_cpuVendor (s : State) (g : CpuGeneration) (t : String) :
    (s.setGeneration g t).cpuVendor = s.cpuVendor := rfl

theorem setGeneration_cpuGeneration (s : State) (g : CpuGeneration) (t : String) :
    (s.setGeneration g t).cpuGeneration = g := rfl

theorem switchModel_mem (st : Nat) (s : State) : (switchModel st s).mem = s.mem := by
  simp only [switchModel, apply_ite State.mem, setGeneration_mem, ite_self]

theorem switchModel_cpuVendor (st : Nat) (s : State) :
    (switchModel st s).cpuVendor = s.cpuVendor := by
  simp only [switchModel, apply_ite State.cpuVendor, setGeneration_cpuVendor, ite_self]

/-- The memory after lines 50-63, when leaf 1 is within `cpuMaxLevel`. -/
theorem version_mem (hw : Cpuid) (s : State) (h : 1 ≤ s.cpuMaxLevel) (l : Loc) :
    (parseCPUID.version hw s).mem l =
      if l = Loc.cpuStepping then CpuVersion.stepping ((hw 1 0).eax % 2 ^ 32)
      else if l = Loc.cpuModel then computedModel ((hw 1 0).eax % 2 ^ 32)
      else if l = Loc.cpuFamily then computedFamily ((hw 1 0).eax % 2 ^ 32)
      else if l = parseCPUID.ver then (hw 1 0).eax % 2 ^ 32
      else s.mem l := by
  have h1 : s.mem Loc.cpuMaxLevel ≥ 1 := h
  unfold parseCPUID.version
  simp only [getCpuid_mem, apply_ite State.mem, ite_self, regs_one, Regs.wrap,
    State.cpuFamily, State.cpuModel, mem_assign, parseCPUID.ver, reduceCtorEq,
    Option.some.injEq, if_false, if_true, apply_ite Regs.eax, h1,
    computedFamily, computedModel, eq_comm (a := l), ite_apply]
  split_ifs <;> rfl

theorem assign_cpuVendor (s : State) (l : Loc) (v : Nat) :
    (s.assign l v).cpuVendor = s.cpuVendor := rfl

theorem assign_cpuGeneration (s : State) (l : Loc) (v : Nat) :
    (s.assign l v).cpuGeneration = s.cpuGeneration := rfl

theorem assign_cpuGenerationText (s : State) (l : Loc) (v : Nat) :
    (s.assign l v).cpuGenerationText = s.cpuGenerationText := rfl

theorem version_cpuVendor (hw : Cpuid) (s : State) :
    (parseCPUID.version hw s).cpuVendor = s.cpuVendor := by
  unfold parseCPUID.version
  simp only [assign_cpuVendor, apply_ite State.cpuVendor, ite_self, getCpuid_cpuVendor]

theorem version_cpuGeneration (hw : Cpuid) (s : State) :
    (parseCPUID.version hw s).cpuGeneration = s.cpuGeneration := by
  unfold parseCPUID.version
  simp only [assign_cpuGeneration, apply_ite State.cpuGeneration, ite_self,
    getCpuid_cpuGeneration]

theorem version_cpuGenerationText (hw : Cpuid) (s : State) :
    (parseCPUID.version hw s).cpuGenerationText = s.cpuGenerationText := by
  unfold parseCPUID.version
  simp only [assign_cpuGenerationText, apply_ite State.cpuGenerationText, ite_self,
    getCpuid_cpuGenerationText]

/-- The vendor and the two maxima are those left by lines 37-44. -/
theorem parseCPUID_detect (hw : Cpuid) (s : State) :
    (parseCPUID hw s).cpuVendor = (parseCPUID.detect hw s).cpuVendor
    ∧ (parseCPUID hw s).cpuMaxLevel = (parseCPUID.detect hw s).cpuMaxLevel
    ∧ (parseCPUID hw s).cpuMaxLevelExt = (parseCPUID.detect hw s).cpuMaxLevelExt := by
  by_cases g : (parseCPUID.detect hw s).cpuVendor ≠ CpuVendor.Intel
      ∨ (parseCPUID.detect hw s).cpuMaxLevel < 1
  · simp only [parseCPUID, g, if_true, and_self]
  · have hl : 1 ≤ (parseCPUID.detect hw s).cpuMaxLevel := by
      by_contra hc
      exact g (Or.inr (by omega))
    simp only [parseCPUID, g, if_false]
    simp only [apply_ite State.cpuVendor, apply_ite State.cpuMaxLevel,
      apply_ite State.cpuMaxLevelExt, switchModel_cpuVendor, State.cpuMaxLevel,
      State.cpuMaxLevelExt, switchModel_mem, ite_self, version_cpuVendor,
      version_mem hw _ hl, reduceCtorEq, if_false, if_true, parseCPUID.ver, and_self,
      ite_apply, apply_ite State.mem]

/-- When the final state passes the guard of line 47, the function has run
lines 50-144. -/
theorem parseCPUID_of_guard (hw : Cpuid) (s : State)
    (hv : (parseCPUID hw s).cpuVendor = CpuVendor.Intel)
    (hl : 1 ≤ (parseCPUID hw s).cpuMaxLevel) :
    1 ≤ (parseCPUID.detect hw s).cpuMaxLevel
    ∧ parseCPUID hw s =
      if CpuVersion.family ((hw 1 0).eax % 2 ^ 32) = 6 then
        switchModel (CpuVersion.stepping ((hw 1 0).eax % 2 ^ 32))
          (parseCPUID.version hw (parseCPUID.detect hw s))
      else parseCPUID.version hw (parseCPUID.detect hw s) := by
  have hd := parseCPUID_detect hw s
  rw [hd.1] at hv
  rw [hd.2.1] at hl
  refine ⟨hl, ?_⟩
  have g : ¬ ((parseCPUID.detect hw s).cpuVendor ≠ CpuVendor.Intel
      ∨ (parseCPUID.detect hw s).cpuMaxLevel < 1) := by
    rintro (h | h)
    · exact h hv
    · omega
  have hw1 : (parseCPUID.version hw (parseCPUID.detect hw s)).mem parseCPUID.ver
      = (hw 1 0).eax % 2 ^ 32 := by
    rw [version_mem hw _ hl]
    simp [parseCPUID.ver]
  simp only [parseCPUID, g, if_false, hw1]

/-! ## Claims about the vendor and the maxima -/

/-- The outcome of the two signature tests when the tests exclude each other. -/
theorem vendor_ite (P Q : Prop) [Decidable P] [Decidable Q] (hPQ : P → Q → False) :
    ((if P then CpuVendor.Intel else if Q then CpuVendor.AMD else CpuVendor.Unknown)
        = CpuVendor.Intel ↔ P)
    ∧ ((if P then CpuVendor.Intel else if Q then CpuVendor.AMD else CpuVendor.Unknown)
        = CpuVendor.AMD ↔ Q)
    ∧ ((if P then CpuVendor.Intel else if Q then CpuVendor.AMD else CpuVendor.Unknown)
        = CpuVendor.Unknown ↔ (¬ P ∧ ¬ Q)) := by
  by_cases hP : P
  · have hQ : ¬ Q := fun q => hPQ hP q
    simp [hP, hQ]
  · by_cases hQ : Q
    · simp [hP, hQ]
    · simp [hP, hQ]

/-- C4: after `parseCPUID` run from the initial state, `cpuVendor` is Intel
exactly when the `ebx, ecx, edx` words of leaf 0 are the three Intel constants,
AMD exactly when they are the three AMD constants, and Unknown exactly when
they are neither triple. -/
theorem parseCPUID_vendor (hw : Cpuid) :
    ((parseCPUID hw initial).cpuVendor = CpuVendor.Intel ↔
      ((hw 0 0).ebx % 2 ^ 32 = signature_INTEL_ebx ∧ (hw 0 0).ecx % 2 ^ 32 = signature_INTEL_ecx
        ∧ (hw 0 0).edx % 2 ^ 32 = signature_INTEL_edx))
    ∧ ((parseCPUID hw initial).cpuVendor = CpuVendor.AMD ↔
      ((hw 0 0).ebx % 2 ^ 32 = signature_AMD_ebx ∧ (hw 0 0).ecx % 2 ^ 32 = signature_AMD_ecx
        ∧ (hw 0 0).edx % 2 ^ 32 = signature_AMD_edx))
    ∧ ((parseCPUID hw initial).cpuVendor = CpuVendor.Unknown ↔
      (¬ ((hw 0 0).ebx % 2 ^ 32 = signature_INTEL_ebx
          ∧ (hw 0 0).ecx % 2 ^ 32 = signature_INTEL_ecx
          ∧ (hw 0 0).edx % 2 ^ 32 = signature_INTEL_edx)
        ∧ ¬ ((hw 0 0).ebx % 2 ^ 32 = signature_AMD_ebx
          ∧ (hw 0 0).ecx % 2 ^ 32 = signature_AMD_ecx
          ∧ (hw 0 0).edx % 2 ^ 32 = signature_AMD_edx))) := by
  have hne : signature_INTEL_ebx ≠ signature_AMD_ebx := by decide
  have hi : initial.cpuVendor = CpuVendor.Unknown := rfl
  rw [(parseCPUID_detect hw initial).1, detect_cpuVendor, hi]
  exact vendor_ite _ _ (fun h1 h2 => hne (h1.1.symm.trans h2.1))

/-- C4, on three processors: one answering leaf 0 with all-zero words, one with
the Intel `ebx, edx` and the AMD `ecx`, and one with the Intel signature. -/
theorem parseCPUID_vendor_witness :
    (parseCPUID (fun _ _ => ⟨0, 0, 0, 0⟩) initial).cpuVendor = CpuVendor.Unknown
    ∧ (parseCPUID (fun _ _ => ⟨1, signature_INTEL_ebx, signature_AMD_ecx, signature_INTEL_edx⟩)
        initial).cpuVendor = CpuVendor.Unknown
    ∧ (parseCPUID (intelHw 0x16 0x80000008 0x000406E9) initial).cpuVendor = CpuVendor.Intel :=
  ⟨(parseCPUID_vendor (fun _ _ => ⟨0, 0, 0, 0⟩)).2.2.2 ⟨by decide, by decide⟩,
   (parseCPUID_vendor
      (fun _ _ => ⟨1, signature_INTEL_ebx, signature_AMD_ecx, signature_INTEL_edx⟩)).2.2.2
      ⟨by decide, by decide⟩,
   (parseCPUID_vendor (intelHw 0x16 0x80000008 0x000406E9)).1.2 (by decide)⟩

/-- C5: the little-endian bytes of the Intel words in the order `ebx, edx, ecx`
spell "GenuineIntel", those of the AMD words spell "AuthenticAMD", and each of
the six constants is a 32-bit word. -/
theorem signature_bytes :
    leBytes signature_INTEL_ebx ++ leBytes signature_INTEL_edx ++ leBytes signature_INTEL_ecx
      = asciiBytes "GenuineIntel"
    ∧ leBytes signature_AMD_ebx ++ leBytes signature_AMD_edx ++ leBytes signature_AMD_ecx
      = asciiBytes "AuthenticAMD"
    ∧ signature_INTEL_ebx < 2 ^ 32 ∧ signature_INTEL_edx < 2 ^ 32
    ∧ signature_INTEL_ecx < 2 ^ 32 ∧ signature_AMD_ebx < 2 ^ 32
    ∧ signature_AMD_edx < 2 ^ 32 ∧ signature_AMD_ecx < 2 ^ 32 := by
  decide

/-- C6: after `parseCPUID` run from the initial state, `cpuMaxLevel` is the
`eax` word of leaf 0 and `cpuMaxLevelExt` the `eax` word of leaf `0x80000000`,
on every hardware. -/
theorem parseCPUID_maxLevels (hw : Cpuid) :
    (parseCPUID hw initial).cpuMaxLevel = (hw 0 0).eax % 2 ^ 32
    ∧ (parseCPUID hw initial).cpuMaxLevelExt = (hw 0x80000000 0).eax % 2 ^ 32 := by
  have hi : initial.cpuMaxLevelExt ≥ 0x80000000 := by decide
  rw [(parseCPUID_detect hw initial).2.1, (parseCPUID_detect hw initial).2.2]
  constructor
  · simp only [State.cpuMaxLevel, detect_mem, reduceCtorEq, if_false, if_true,
      parseCPUID.b, parseCPUID.c, parseCPUID.d]
  · simp only [State.cpuMaxLevelExt, detect_mem, if_true]
    exact if_pos hi

/-! ## The version word -/

theorem family_lt (w : Nat) : CpuVersion.family w < 16 :=
  Nat.and_lt_two_pow _ (by norm_num : 0xF < 2 ^ 4)

theorem extendedFamily_lt (w : Nat) : CpuVersion.extendedFamily w < 256 :=
  Nat.and_lt_two_pow _ (by norm_num : 0xFF < 2 ^ 8)

theorem model_lt (w : Nat) : CpuVersion.model w < 16 :=
  Nat.and_lt_two_pow _ (by norm_num : 0xF < 2 ^ 4)

theorem extendedModel_lt (w : Nat) : CpuVersion.extendedModel w < 16 :=
  Nat.and_lt_two_pow _ (by norm_num : 0xF < 2 ^ 4)

theorem stepping_lt (w : Nat) : CpuVersion.stepping w < 16 :=
  Nat.and_lt_two_pow _ (by norm_num : 0xF < 2 ^ 4)

/-- The model with the extended model in its high nibble is an 8-bit value. -/
theorem model_or_lt (w : Nat) :
    CpuVersion.model w ||| (CpuVersion.extendedModel w <<< 4) < 256 := by
  have h1 : CpuVersion.model w < 2 ^ 8 := lt_trans (model_lt w) (by norm_num)
  have h2 : CpuVersion.extendedModel w <<< 4 < 2 ^ 8 := by
    have := extendedModel_lt w
    rw [Nat.shiftLeft_eq]
    omega
  exact Nat.or_lt_two_pow h1 h2

theorem computedFamily_eq (w : Nat) :
    computedFamily w =
      if CpuVersion.family w = 15 then 15 + CpuVersion.extendedFamily w
      else CpuVersion.family w := by
  unfold computedFamily
  have := extendedFamily_lt w
  split_ifs with h
  · rw [h]
    omega
  · rfl

theorem computedModel_eq (w : Nat) :
    computedModel w =
      if computedFamily w = 15 ∨ computedFamily w = 6 then
        CpuVersion.model w ||| (CpuVersion.extendedModel w <<< 4)
      else CpuVersion.model w := by
  unfold computedModel
  have := model_or_lt w
  split_ifs with h
  · omega
  · rfl

/-- The memory after a run of `parseCPUID` that passes the guard of line 47. -/
theorem parseCPUID_mem_of_guard (hw : Cpuid) (s : State)
    (hv : (parseCPUID hw s).cpuVendor = CpuVendor.Intel)
    (hl : 1 ≤ (parseCPUID hw s).cpuMaxLevel) (l : Loc) :
    (parseCPUID hw s).mem l =
      if l = Loc.cpuStepping then CpuVersion.stepping ((hw 1 0).eax % 2 ^ 32)
      else if l = Loc.cpuModel then computedModel ((hw 1 0).eax % 2 ^ 32)
      else if l = Loc.cpuFamily then computedFamily ((hw 1 0).eax % 2 ^ 32)
      else if l = parseCPUID.ver then (hw 1 0).eax % 2 ^ 32
      else (parseCPUID.detect hw s).mem l := by
  obtain ⟨hl', he⟩ := parseCPUID_of_guard hw s hv hl
  rw [he]
  simp only [apply_ite State.mem, switchModel_mem, ite_self]
  exact version_mem hw _ hl' l

theorem parseCPUID_cpuFamily_of_guard (hw : Cpuid) (s : State)
    (hv : (parseCPUID hw s).cpuVendor = CpuVendor.Intel)
    (hl : 1 ≤ (parseCPUID hw s).cpuMaxLevel) :
    (parseCPUID hw s).cpuFamily = computedFamily ((hw 1 0).eax % 2 ^ 32) := by
  unfold State.cpuFamily
  rw [parseCPUID_mem_of_guard hw s hv hl]
  simp only [reduceCtorEq, if_false, if_true]

theorem parseCPUID_cpuModel_of_guard (hw : Cpuid) (s : State)
    (hv : (parseCPUID hw s).cpuVendor = CpuVendor.Intel)
    (hl : 1 ≤ (parseCPUID hw s).cpuMaxLevel) :
    (parseCPUID hw s).cpuModel = computedModel ((hw 1 0).eax % 2 ^ 32) := by
  unfold State.cpuModel
  rw [parseCPUID_mem_of_guard hw s hv hl]
  simp only [reduceCtorEq, if_false, if_true]

theorem parseCPUID_cpuStepping_of_guard (hw : Cpuid) (s : State)
    (hv : (parseCPUID hw s).cpuVendor = CpuVendor.Intel)
    (hl : 1 ≤ (parseCPUID hw s).cpuMaxLevel) :
    (parseCPUID hw s).cpuStepping = CpuVersion.stepping ((hw 1 0).eax % 2 ^ 32) := by
  unfold State.cpuStepping
  rw [parseCPUID_mem_of_guard hw s hv hl]
  simp only [if_true]

/-! ## The `switch` -/

theorem switchModel_table (st : Nat) (s : State) (h1 : s.cpuModel ≠ 0x8E)
    (h2 : s.cpuModel ≠ 0x9E) :
    (switchModel st s).cpuGeneration = specGeneration s.cpuModel := by
  simp only [switchModel, apply_ite State.cpuGeneration, setGeneration_cpuGeneration,
    CPU_MODEL_PENRYN, CPU_MODEL_NEHALEM, CPU_MODEL_FIELDS, CPU_MODEL_DALES,
    CPU_MODEL_NEHALEM_EX, CPU_MODEL_DALES_32NM, CPU_MODEL_WESTMERE, CPU_MODEL_WESTMERE_EX,
    CPU_MODEL_SANDYBRIDGE, CPU_MODEL_JAKETOWN, CPU_MODEL_IVYBRIDGE, CPU_MODEL_IVYBRIDGE_EP,
    CPU_MODEL_CRYSTALWELL, CPU_MODEL_HASWELL, CPU_MODEL_HASWELL_EP, CPU_MODEL_HASWELL_ULT,
    CPU_MODEL_BROADWELL, CPU_MODEL_BRYSTALWELL, CPU_MODEL_SKYLAKE, CPU_MODEL_SKYLAKE_DT,
    CPU_MODEL_SKYLAKE_W, CPU_MODEL_KABYLAKE, CPU_MODEL_KABYLAKE_DT, CPU_MODEL_CANNONLAKE,
    CPU_MODEL_ICELAKE_Y, CPU_MODEL_ICELAKE_U, CPU_MODEL_ICELAKE_SP, CPU_MODEL_COMETLAKE_Y,
    CPU_MODEL_COMETLAKE_U, h1, h2, or_self, if_false, specGeneration, specTable, lookupRow,
    List.mem_cons, List.mem_singleton, List.not_mem_nil, or_false]

theorem switchModel_shared (st : Nat) (s : State)
    (h : s.cpuModel = 0x8E ∨ s.cpuModel = 0x9E) :
    (switchModel st s).cpuGeneration =
      if st = 9 then CpuGeneration.KabyLake else CpuGeneration.CoffeeLake := by
  simp only [switchModel, apply_ite State.cpuGeneration, setGeneration_cpuGeneration,
    CPU_MODEL_PENRYN, CPU_MODEL_NEHALEM, CPU_MODEL_FIELDS, CPU_MODEL_DALES,
    CPU_MODEL_NEHALEM_EX, CPU_MODEL_DALES_32NM, CPU_MODEL_WESTMERE, CPU_MODEL_WESTMERE_EX,
    CPU_MODEL_SANDYBRIDGE, CPU_MODEL_JAKETOWN, CPU_MODEL_IVYBRIDGE, CPU_MODEL_IVYBRIDGE_EP,
    CPU_MODEL_CRYSTALWELL, CPU_MODEL_HASWELL, CPU_MODEL_HASWELL_EP, CPU_MODEL_HASWELL_ULT,
    CPU_MODEL_BROADWELL, CPU_MODEL_BRYSTALWELL, CPU_MODEL_SKYLAKE, CPU_MODEL_SKYLAKE_DT,
    CPU_MODEL_SKYLAKE_W, CPU_MODEL_KABYLAKE, CPU_MODEL_KABYLAKE_DT]
  rcases h with h | h <;> simp [h]

/-- The generation after a run that passes the guard of line 47, for a version
word whose base family is 6: the outcome of the `switch` on a state whose
`cpuModel` is the model with the extended model in its high nibble. -/
theorem parseCPUID_cpuGeneration_of_family6 (hw : Cpuid) (s : State)
    (hv : (parseCPUID hw s).cpuVendor = CpuVendor.Intel)
    (hl : 1 ≤ (parseCPUID hw s).cpuMaxLevel)
    (hf : CpuVersion.family ((hw 1 0).eax % 2 ^ 32) = 6) :
    ∃ v : State, v.cpuModel = CpuVersion.model ((hw 1 0).eax % 2 ^ 32)
        ||| (CpuVersion.extendedModel ((hw 1 0).eax % 2 ^ 32) <<< 4)
      ∧ v.cpuGenerationText = s.cpuGenerationText
      ∧ parseCPUID hw s = switchModel (CpuVersion.stepping ((hw 1 0).eax % 2 ^ 32)) v := by
  obtain ⟨hl', he⟩ := parseCPUID_of_guard hw s hv hl
  refine ⟨parseCPUID.version hw (parseCPUID.detect hw s), ?_, ?_, ?_⟩
  · unfold State.cpuModel
    rw [version_mem hw _ hl']
    simp only [reduceCtorEq, if_false, if_true]
    rw [computedModel_eq, computedFamily_eq, hf]
    simp
  · rw [version_cpuGenerationText, detect_cpuGenerationText]
  · rw [he, if_pos hf]

/-! ## Claims about family, model and generation -/

/-- C7: in a run of `parseCPUID` that decodes the version word `w` (the final
state passes the guard of line 47 and `w` is the `eax` word of leaf 1),
`cpuFamily` is the base family field when that field is not 15, and 15 plus the
extended family field when it is 15; the extended family is at most 255 and
`cpuFamily` at most 270. -/
theorem parseCPUID_family (hw : Cpuid) (s : State) (w : Nat)
    (hv : (parseCPUID hw s).cpuVendor = CpuVendor.Intel)
    (hl : 1 ≤ (parseCPUID hw s).cpuMaxLevel)
    (hw1 : (hw 1 0).eax % 2 ^ 32 = w) :
    (CpuVersion.family w ≠ 15 → (parseCPUID hw s).cpuFamily = CpuVersion.family w)
    ∧ (CpuVersion.family w = 15 →
        (parseCPUID hw s).cpuFamily = 15 + CpuVersion.extendedFamily w)
    ∧ CpuVersion.extendedFamily w ≤ 255
    ∧ (parseCPUID hw s).cpuFamily ≤ 270 := by
  have hF := parseCPUID_cpuFamily_of_guard hw s hv hl
  rw [hw1, computedFamily_eq] at hF
  have he := extendedFamily_lt w
  have hf := family_lt w
  rw [hF]
  refine ⟨fun h => if_neg h, fun h => if_pos h, by omega, ?_⟩
  split_ifs <;> omega

/-- C7, at the version word `0x0FF00F00` (base family 15, extended family 255):
`cpuFamily` is 270, where the bitwise OR of the two fields is 255. -/
theorem parseCPUID_family_witness :
    (parseCPUID (intelHw 0x16 0x80000008 0x0FF00F00) initial).cpuVendor = CpuVendor.Intel
    ∧ 1 ≤ (parseCPUID (intelHw 0x16 0x80000008 0x0FF00F00) initial).cpuMaxLevel
    ∧ (intelHw 0x16 0x80000008 0x0FF00F00 1 0).eax % 2 ^ 32 = 0x0FF00F00
    ∧ CpuVersion.family 0x0FF00F00 = 15
    ∧ CpuVersion.extendedFamily 0x0FF00F00 = 255
    ∧ (parseCPUID (intelHw 0x16 0x80000008 0x0FF00F00) initial).cpuFamily = 270
    ∧ CpuVersion.family 0x0FF00F00 ||| CpuVersion.extendedFamily 0x0FF00F00 = 255 :=
  ⟨by decide, by decide, by decide, by decide, by decide,
   (parseCPUID_family (intelHw 0x16 0x80000008 0x0FF00F00) initial 0x0FF00F00 (by decide)
      (by decide) (by decide)).2.1 (by decide),
   by decide⟩

/-- C8: in a run of `parseCPUID` that decodes the version word `w`, `cpuModel`
is the base model field when the computed `cpuFamily` is neither 6 nor 15, and
the base model field OR-ed with the extended model field shifted left by 4
when the computed `cpuFamily` is 6 or 15. -/
theorem parseCPUID_model (hw : Cpuid) (s : State) (w : Nat)
    (hv : (parseCPUID hw s).cpuVendor = CpuVendor.Intel)
    (hl : 1 ≤ (parseCPUID hw s).cpuMaxLevel)
    (hw1 : (hw 1 0).eax % 2 ^ 32 = w) :
    ((parseCPUID hw s).cpuFamily ≠ 6 → (parseCPUID hw s).cpuFamily ≠ 15 →
        (parseCPUID hw s).cpuModel = CpuVersion.model w)
    ∧ ((parseCPUID hw s).cpuFamily = 6 ∨ (parseCPUID hw s).cpuFamily = 15 →
        (parseCPUID hw s).cpuModel
          = CpuVersion.model w ||| (CpuVersion.extendedModel w <<< 4)) := by
  have hF := parseCPUID_cpuFamily_of_guard hw s hv hl
  have hM := parseCPUID_cpuModel_of_guard hw s hv hl
  rw [hw1] at hF hM
  rw [computedModel_eq] at hM
  rw [hM, hF]
  constructor
  · intro h6 h15
    exact if_neg (fun h => h.elim h15 h6)
  · intro h
    exact if_pos (h.elim Or.inr Or.inl)

/-- C8, at the version words `0x000406E9` (family 6: model `0x4E`) and
`0x000405E9` (family 5: model `0xE`, extended model 4 ignored). -/
theorem parseCPUID_model_witness :
    (parseCPUID (intelHw 0x16 0x80000008 0x000406E9) initial).cpuVendor = CpuVendor.Intel
    ∧ 1 ≤ (parseCPUID (intelHw 0x16 0x80000008 0x000406E9) initial).cpuMaxLevel
    ∧ (parseCPUID (intelHw 0x16 0x80000008 0x000406E9) initial).cpuFamily = 6
    ∧ (parseCPUID (intelHw 0x16 0x80000008 0x000406E9) initial).cpuModel = 0x4E
    ∧ (parseCPUID (intelHw 0x16 0x80000008 0x000405E9) initial).cpuFamily = 5
    ∧ (parseCPUID (intelHw 0x16 0x80000008 0x000405E9) initial).cpuModel = 0xE :=
  ⟨by decide, by decide, by decide,
   (parseCPUID_model (intelHw 0x16 0x80000008 0x000406E9) initial 0x000406E9 (by decide)
      (by decide) (by decide)).2 (Or.inl (by decide)),
   by decide,
   (parseCPUID_model (intelHw 0x16 0x80000008 0x000405E9) initial 0x000405E9 (by decide)
      (by decide) (by decide)).1 (by decide) (by decide)⟩

/-- C9: in a run of `parseCPUID` that decodes a version word `w` whose base
family field is 6 and whose model `m` (base model OR-ed with the extended model
shifted left by 4, below 256) is neither `0x8E` nor `0x9E`, `cpuGeneration` is
the generation `specTable` lists for `m`, Unknown if none; any other such run
with the same `m` ends with the same generation, whatever its stepping. -/
theorem parseCPUID_generation_table (hw : Cpuid) (s : State) (w : Nat)
    (hv : (parseCPUID hw s).cpuVendor = CpuVendor.Intel)
    (hl : 1 ≤ (parseCPUID hw s).cpuMaxLevel)
    (hw1 : (hw 1 0).eax % 2 ^ 32 = w)
    (hf : CpuVersion.family w = 6)
    (h8E : CpuVersion.model w ||| (CpuVersion.extendedModel w <<< 4) ≠ 0x8E)
    (h9E : CpuVersion.model w ||| (CpuVersion.extendedModel w <<< 4) ≠ 0x9E) :
    (parseCPUID hw s).cpuGeneration
        = specGeneration (CpuVersion.model w ||| (CpuVersion.extendedModel w <<< 4))
    ∧ (parseCPUID hw s).cpuModel = CpuVersion.model w ||| (CpuVersion.extendedModel w <<< 4)
    ∧ CpuVersion.model w ||| (CpuVersion.extendedModel w <<< 4) < 256
    ∧ (∀ (hw' : Cpuid) (s' : State) (w' : Nat),
        (parseCPUID hw' s').cpuVendor = CpuVendor.Intel →
        1 ≤ (parseCPUID hw' s').cpuMaxLevel →
        (hw' 1 0).eax % 2 ^ 32 = w' →
        CpuVersion.family w' = 6 →
        CpuVersion.model w' ||| (CpuVersion.extendedModel w' <<< 4)
          = CpuVersion.model w ||| (CpuVersion.extendedModel w <<< 4) →
        (parseCPUID hw' s').cpuGeneration = (parseCPUID hw s).cpuGeneration) := by
  have key : ∀ (hw : Cpuid) (s : State) (w : Nat),
      (parseCPUID hw s).cpuVendor = CpuVendor.Intel →
      1 ≤ (parseCPUID hw s).cpuMaxLevel →
      (hw 1 0).eax % 2 ^ 32 = w →
      CpuVersion.family w = 6 →
      CpuVersion.model w ||| (CpuVersion.extendedModel w <<< 4) ≠ 0x8E →
      CpuVersion.model w ||| (CpuVersion.extendedModel w <<< 4) ≠ 0x9E →
      (parseCPUID hw s).cpuGeneration
        = specGeneration (CpuVersion.model w ||| (CpuVersion.extendedModel w <<< 4)) := by
    intro hw s w hv hl hw1 hf h8E h9E
    subst hw1
    obtain ⟨v, hm, _, he⟩ := parseCPUID_cpuGeneration_of_family6 hw s hv hl hf
    rw [he, ← hm]
    rw [← hm] at h8E h9E
    exact switchModel_table _ v h8E h9E
  refine ⟨key hw s w hv hl hw1 hf h8E h9E, ?_, model_or_lt w, ?_⟩
  · have hF : computedFamily w = 6 := by
      rw [computedFamily_eq, if_neg (by omega), hf]
    have hM := parseCPUID_cpuModel_of_guard hw s hv hl
    rw [hw1, computedModel_eq, if_pos (Or.inr hF)] at hM
    exact hM
  · intro hw' s' w' hv' hl' hw1' hf' hm
    rw [key hw s w hv hl hw1 hf h8E h9E,
      key hw' s' w' hv' hl' hw1' hf' (by rw [hm]; exact h8E) (by rw [hm]; exact h9E), hm]

/-- C9, at the version words `0x00010676` and `0x0001067A` (family 6, model
`0x17`, steppings 6 and 10): Penryn both times; and at `0x000506E3` (model
`0x5E`): Skylake; and at `0x00000661` (model `0x06`, in no row): Unknown. -/
theorem parseCPUID_generation_table_witness :
    (parseCPUID (intelHw 0x16 0x80000008 0x00010676) initial).cpuVendor = CpuVendor.Intel
    ∧ 1 ≤ (parseCPUID (intelHw 0x16 0x80000008 0x00010676) initial).cpuMaxLevel
    ∧ CpuVersion.family 0x00010676 = 6
    ∧ CpuVersion.model 0x00010676 ||| (CpuVersion.extendedModel 0x00010676 <<< 4) = 0x17
    ∧ (parseCPUID (intelHw 0x16 0x80000008 0x00010676) initial).cpuGeneration
        = CpuGeneration.Penryn
    ∧ (parseCPUID (intelHw 0x16 0x80000008 0x0001067A) initial).cpuGeneration
        = CpuGeneration.Penryn
    ∧ (parseCPUID (intelHw 0x16 0x80000008 0x000506E3) initial).cpuGeneration
        = CpuGeneration.Skylake
    ∧ (parseCPUID (intelHw 0x16 0x80000008 0x00000661) initial).cpuGeneration
        = CpuGeneration.Unknown :=
  ⟨by decide, by decide, by decide, by decide,
   (parseCPUID_generation_table (intelHw 0x16 0x80000008 0x00010676) initial 0x00010676
      (by decide) (by decide) (by decide) (by decide) (by decide) (by decide)).1,
   (parseCPUID_generation_table (intelHw 0x16 0x80000008 0x0001067A) initial 0x0001067A
      (by decide) (by decide) (by decide) (by decide) (by decide) (by decide)).1,
   (parseCPUID_generation_table (intelHw 0x16 0x80000008 0x000506E3) initial 0x000506E3
      (by decide) (by decide) (by decide) (by decide) (by decide) (by decide)).1,
   (parseCPUID_generation_table (intelHw 0x16 0x80000008 0x00000661) initial 0x00000661
      (by decide) (by decide) (by decide) (by decide) (by decide) (by decide)).1⟩

/-- C10: in a run of `parseCPUID` that decodes a version word `w` whose base
family field is 6 and whose model is `0x8E` or `0x9E`, `cpuGeneration` is
KabyLake when the stepping field is 9 and CoffeeLake for every other stepping;
the stepping field is at most 15. -/
theorem parseCPUID_generation_shared (hw : Cpuid) (s : State) (w : Nat)
    (hv : (parseCPUID hw s).cpuVendor = CpuVendor.Intel)
    (hl : 1 ≤ (parseCPUID hw s).cpuMaxLevel)
    (hw1 : (hw 1 0).eax % 2 ^ 32 = w)
    (hf : CpuVersion.family w = 6)
    (hm : CpuVersion.model w ||| (CpuVersion.extendedModel w <<< 4) = 0x8E
      ∨ CpuVersion.model w ||| (CpuVersion.extendedModel w <<< 4) = 0x9E) :
    (CpuVersion.stepping w = 9 → (parseCPUID hw s).cpuGeneration = CpuGeneration.KabyLake)
    ∧ (CpuVersion.stepping w ≠ 9 →
        (parseCPUID hw s).cpuGeneration = CpuGeneration.CoffeeLake)
    ∧ CpuVersion.stepping w ≤ 15 := by
  subst hw1
  obtain ⟨v, hmv, _, he⟩ := parseCPUID_cpuGeneration_of_family6 hw s hv hl hf
  rw [← hmv] at hm
  have hs := stepping_lt ((hw 1 0).eax % 2 ^ 32)
  rw [he, switchModel_shared _ v hm]
  exact ⟨fun h => if_pos h, fun h => if_neg h, by omega⟩

/-- C10, at the version words `0x000806E9` (model `0x8E`, stepping 9),
`0x000806EA` (model `0x8E`, stepping 10) and `0x000906EA` (model `0x9E`,
stepping 10). -/
theorem parseCPUID_generation_shared_witness :
    (parseCPUID (intelHw 0x16 0x80000008 0x000806E9) initial).cpuVendor = CpuVendor.Intel
    ∧ 1 ≤ (parseCPUID (intelHw 0x16 0x80000008 0x000806E9) initial).cpuMaxLevel
    ∧ CpuVersion.family 0x000806E9 = 6
    ∧ CpuVersion.model 0x000806E9 ||| (CpuVersion.extendedModel 0x000806E9 <<< 4) = 0x8E
    ∧ (parseCPUID (intelHw 0x16 0x80000008 0x000806E9) initial).cpuGeneration
        = CpuGeneration.KabyLake
    ∧ (parseCPUID (intelHw 0x16 0x80000008 0x000806EA) initial).cpuGeneration
        = CpuGeneration.CoffeeLake
    ∧ (parseCPUID (intelHw 0x16 0x80000008 0x000906EA) initial).cpuGeneration
        = CpuGeneration.CoffeeLake :=
  ⟨by decide, by decide, by decide, by decide,
   (parseCPUID_generation_shared (intelHw 0x16 0x80000008 0x000806E9) initial 0x000806E9
      (by decide) (by decide) (by decide) (by decide) (Or.inl (by decide))).1 (by decide),
   (parseCPUID_generation_shared (intelHw 0x16 0x80000008 0x000806EA) initial 0x000806EA
      (by decide) (by decide) (by decide) (by decide) (Or.inl (by decide))).2.1 (by decide),
   (parseCPUID_generation_shared (intelHw 0x16 0x80000008 0x000906EA) initial 0x000906EA
      (by decide) (by decide) (by decide) (by decide) (Or.inr (by decide))).2.1 (by decide)⟩

/-! ## The layout of the version word -/

theorem and_mask_eq_mod (x : Nat) :
    x &&& 0xF = x % 16 ∧ x &&& 0x3 = x % 4 ∧ x &&& 0xFF = x % 256 :=
  ⟨Nat.and_pow_two_sub_one_eq_mod x 4, Nat.and_pow_two_sub_one_eq_mod x 2,
    Nat.and_pow_two_sub_one_eq_mod x 8⟩

/-- The eight field readers as quotients and remainders. -/
theorem fields_div_mod (w : Nat) :
    CpuVersion.stepping w = w % 16
    ∧ CpuVersion.model w = w / 16 % 16
    ∧ CpuVersion.family w = w / 256 % 16
    ∧ CpuVersion.type w = w / 4096 % 4
    ∧ CpuVersion.reserved1 w = w / 16384 % 4
    ∧ CpuVersion.extendedModel w = w / 65536 % 16
    ∧ CpuVersion.extendedFamily w = w / 1048576 % 256
    ∧ CpuVersion.reserved2 w = w / 268435456 % 16 := by
  simp only [CpuVersion.stepping, CpuVersion.model, CpuVersion.family, CpuVersion.type,
    CpuVersion.reserved1, CpuVersion.extendedModel, CpuVersion.extendedFamily,
    CpuVersion.reserved2, and_mask_eq_mod, Nat.shiftRight_eq_div_pow]
  norm_num

/-- OR-ing a value shifted left by `k` onto a value below `2 ^ k` adds it. -/
theorem or_shiftLeft_eq_add (a b k : Nat) (h : a < 2 ^ k) : a ||| (b <<< k) = a + b * 2 ^ k := by
  rw [Nat.lor_comm, Nat.shiftLeft_eq, Nat.mul_comm b, ← Nat.mul_add_lt_is_or h, Nat.add_comm]

/-- The packed word as a sum, when every value fits its field. -/
theorem pack_eq_sum (st mo fa ty r1 em ef r2 : Nat) (h0 : st < 2 ^ 4) (h1 : mo < 2 ^ 4)
    (h2 : fa < 2 ^ 4) (h3 : ty < 2 ^ 2) (h4 : r1 < 2 ^ 2) (h5 : em < 2 ^ 4) (h6 : ef < 2 ^ 8) :
    CpuVersion.pack st mo fa ty r1 em ef r2 =
      st + mo * 16 + fa * 256 + ty * 4096 + r1 * 16384 + em * 65536 + ef * 1048576
        + r2 * 268435456 := by
  unfold CpuVersion.pack
  rw [or_shiftLeft_eq_add _ _ 4 h0, or_shiftLeft_eq_add _ _ 8 (by omega),
    or_shiftLeft_eq_add _ _ 12 (by omega), or_shiftLeft_eq_add _ _ 14 (by omega),
    or_shiftLeft_eq_add _ _ 16 (by omega), or_shiftLeft_eq_add _ _ 20 (by omega),
    or_shiftLeft_eq_add _ _ 28 (by omega)]
  norm_num

/-- C13: the widths of the eight fields of `CpuVersion` add up to 32; a word
packed from field values within their widths is a 32-bit word from which each
field reader returns the value packed; and packing the eight fields read from
any 32-bit word gives the word back. -/
theorem CpuVersion_roundtrip :
    CpuVersion.widths.sum = 32
    ∧ (∀ st mo fa ty r1 em ef r2 : Nat,
        st < 2 ^ 4 → mo < 2 ^ 4 → fa < 2 ^ 4 → ty < 2 ^ 2 → r1 < 2 ^ 2 → em < 2 ^ 4 →
        ef < 2 ^ 8 → r2 < 2 ^ 4 →
        CpuVersion.pack st mo fa ty r1 em ef r2 < 2 ^ 32
        ∧ CpuVersion.stepping (CpuVersion.pack st mo fa ty r1 em ef r2) = st
        ∧ CpuVersion.model (CpuVersion.pack st mo fa ty r1 em ef r2) = mo
        ∧ CpuVersion.family (CpuVersion.pack st mo fa ty r1 em ef r2) = fa
        ∧ CpuVersion.type (CpuVersion.pack st mo fa ty r1 em ef r2) = ty
        ∧ CpuVersion.reserved1 (CpuVersion.pack st mo fa ty r1 em ef r2) = r1
        ∧ CpuVersion.extendedModel (CpuVersion.pack st mo fa ty r1 em ef r2) = em
        ∧ CpuVersion.extendedFamily (CpuVersion.pack st mo fa ty r1 em ef r2) = ef
        ∧ CpuVersion.reserved2 (CpuVersion.pack st mo fa ty r1 em ef r2) = r2)
    ∧ (∀ w : Nat, w < 2 ^ 32 →
        CpuVersion.pack (CpuVersion.stepping w) (CpuVersion.model w) (CpuVersion.family w)
          (CpuVersion.type w) (CpuVersion.reserved1 w) (CpuVersion.extendedModel w)
          (CpuVersion.extendedFamily w) (CpuVersion.reserved2 w) = w) := by
  refine ⟨by decide, ?_, ?_⟩
  · intro st mo fa ty r1 em ef r2 h0 h1 h2 h3 h4 h5 h6 h7
    obtain ⟨f0, f1, f2, f3, f4, f5, f6, f7⟩ :=
      fields_div_mod (CpuVersion.pack st mo fa ty r1 em ef r2)
    rw [f0, f1, f2, f3, f4, f5, f6, f7, pack_eq_sum st mo fa ty r1 em ef r2 h0 h1 h2 h3 h4 h5 h6]
    refine ⟨?_, ?_, ?_, ?_, ?_, ?_, ?_, ?_, ?_⟩ <;> omega
  · intro w hw
    obtain ⟨f0, f1, f2, f3, f4, f5, f6, f7⟩ := fields_div_mod w
    rw [pack_eq_sum _ _ _ _ _ _ _ _ (stepping_lt w) (model_lt w) (family_lt w)
      (by rw [f3]; omega) (by rw [f4]; omega) (extendedModel_lt w) (extendedFamily_lt w),
      f0, f1, f2, f3, f4, f5, f6, f7]
    omega

/-- C13, at the fields of `0x000406E9` and at the word `0xDEADBEEF`. -/
theorem CpuVersion_roundtrip_witness :
    CpuVersion.pack 9 0xE 6 0 0 4 0 0 = 0x000406E9
    ∧ CpuVersion.model (CpuVersion.pack 9 0xE 6 0 0 4 0 0) = 0xE
    ∧ CpuVersion.extendedModel (CpuVersion.pack 9 0xE 6 0 0 4 0 0) = 4
    ∧ CpuVersion.pack (CpuVersion.stepping 0xDEADBEEF) (CpuVersion.model 0xDEADBEEF)
        (CpuVersion.family 0xDEADBEEF) (CpuVersion.type 0xDEADBEEF)
        (CpuVersion.reserved1 0xDEADBEEF) (CpuVersion.extendedModel 0xDEADBEEF)
        (CpuVersion.extendedFamily 0xDEADBEEF) (CpuVersion.reserved2 0xDEADBEEF) = 0xDEADBEEF :=
  ⟨by decide,
   (CpuVersion_roundtrip.2.1 9 0xE 6 0 0 4 0 0 (by decide) (by decide) (by decide) (by decide)
      (by decide) (by decide) (by decide) (by decide)).2.2.1,
   (CpuVersion_roundtrip.2.1 9 0xE 6 0 0 4 0 0 (by decide) (by decide) (by decide) (by decide)
      (by decide) (by decide) (by decide) (by decide)).2.2.2.2.2.2.1,
   CpuVersion_roundtrip.2.2 0xDEADBEEF (by decide)⟩

/-! ## Claims about `printInfo` -/

/-- C17: the vendor label of `printInfo` is "Intel" exactly when `cpuVendor`
is Intel and "AMD" for every other value, so "AMD" for Unknown; it is never
"Unknown"; and the first text written is "CPU vendor: " followed by the label
and a line feed. -/
theorem printInfo_vendorLabel (s : State) :
    (printInfo.vendorLabel s = "Intel" ↔ s.cpuVendor = CpuVendor.Intel)
    ∧ (printInfo.vendorLabel s = "AMD" ↔ s.cpuVendor ≠ CpuVendor.Intel)
    ∧ (s.cpuVendor = CpuVendor.Unknown → printInfo.vendorLabel s = "AMD")
    ∧ printInfo.vendorLabel s ≠ "Unknown"
    ∧ (printInfo s).head? = some ("CPU vendor: " ++ printInfo.vendorLabel s ++ "\n") := by
  have h1 : ("Intel" : String) ≠ "AMD" := by decide
  have h2 : ("Intel" : String) ≠ "Unknown" := by decide
  have h3 : ("AMD" : String) ≠ "Unknown" := by decide
  have hh : (printInfo s).head? = some ("CPU vendor: " ++ printInfo.vendorLabel s ++ "\n") := by
    unfold printInfo
    split_ifs <;> rfl
  refine ⟨?_, ?_, ?_, ?_, hh⟩
  · unfold printInfo.vendorLabel
    by_cases h : s.cpuVendor = CpuVendor.Intel
    · simp [h]
    · simp [h, h1.symm]
  · unfold printInfo.vendorLabel
    by_cases h : s.cpuVendor = CpuVendor.Intel
    · simp [h, h1]
    · simp [h]
  · intro h
    unfold printInfo.vendorLabel
    simp [h]
  · unfold printInfo.vendorLabel
    by_cases h : s.cpuVendor = CpuVendor.Intel
    · simp [h, h2]
    · simp [h, h3]

/-- C17, on the state left by a processor answering leaf 0 with all-zero
words: the vendor is Unknown and the first text written is "CPU vendor: AMD". -/
theorem printInfo_vendorLabel_witness :
    (parseCPUID (fun _ _ => ⟨0, 0, 0, 0⟩) initial).cpuVendor = CpuVendor.Unknown
    ∧ printInfo.vendorLabel (parseCPUID (fun _ _ => ⟨0, 0, 0, 0⟩) initial) = "AMD"
    ∧ (printInfo (parseCPUID (fun _ _ => ⟨0, 0, 0, 0⟩) initial)).head?
        = some "CPU vendor: AMD\n" :=
  ⟨by decide,
   (printInfo_vendorLabel (parseCPUID (fun _ _ => ⟨0, 0, 0, 0⟩) initial)).2.2.1 (by decide),
   by decide⟩

/-! ## The calls made by `parseCPUID` -/

theorem getCpuid_calls (hw : Cpuid) (no count : Nat) (a b c d : Option Loc) (s : State) :
    (getCpuid hw no count a b c d s).2.calls = s.calls ++ [(no, count)] := by
  simp only [getCpuid_snd, calls_store]

theorem getCpuid_issued (hw : Cpuid) (no count : Nat) (a b c d : Option Loc) (s : State) :
    (getCpuid hw no count a b c d s).2.issued =
      if supported s no then s.issued ++ [(no, count)] else s.issued := by
  simp only [getCpuid_snd, issued_store]

theorem assign_calls (s : State) (l : Loc) (v : Nat) : (s.assign l v).calls = s.calls := rfl

theorem assign_issued (s : State) (l : Loc) (v : Nat) : (s.assign l v).issued = s.issued := rfl

theorem detect_calls (hw : Cpuid) (s : State) :
    (parseCPUID.detect hw s).calls = s.calls ++ [(0, 0), (0x80000000, 0)] := by
  unfold parseCPUID.detect
  simp only [getCpuid_calls, apply_ite State.calls, ite_self, assign_calls, List.append_assoc,
    List.singleton_append]

theorem detect_issued (hw : Cpuid) (s : State) :
    (parseCPUID.detect hw s).issued =
      if s.cpuMaxLevelExt ≥ 0x80000000 then s.issued ++ [(0, 0), (0x80000000, 0)]
      else s.issued ++ [(0, 0)] := by
  unfold parseCPUID.detect
  simp only [getCpuid_issued, apply_ite State.issued, ite_self, assign_issued,
    supported_zero, supported_extBase, State.cpuMaxLevelExt, apply_ite State.mem,
    getCpuid_mem, mem_assign, parseCPUID.b, parseCPUID.c, parseCPUID.d, reduceCtorEq,
    Option.some.injEq, if_false, if_true, decide_eq_true_eq, List.append_assoc,
    List.singleton_append]

theorem version_calls (hw : Cpuid) (s : State) :
    (parseCPUID.version hw s).calls = s.calls ++ [(1, 0)] := by
  unfold parseCPUID.version
  simp only [getCpuid_calls, apply_ite State.calls, ite_self, assign_calls]

theorem version_issued (hw : Cpuid) (s : State) (h : 1 ≤ s.cpuMaxLevel) :
    (parseCPUID.version hw s).issued = s.issued ++ [(1, 0)] := by
  have h1 : supported (s.assign parseCPUID.ver 0) 1 = true := by
    rw [supported_one]
    exact decide_eq_true h
  unfold parseCPUID.version
  simp only [getCpuid_issued, apply_ite State.issued, ite_self, assign_issued, h1, if_true]

theorem setGeneration_cpuGenerationText (s : State) (g : CpuGeneration) (t : String) :
    (s.setGeneration g t).cpuGenerationText = t := rfl

theorem setGeneration_calls (s : State) (g : CpuGeneration) (t : String) :
    (s.setGeneration g t).calls = s.calls := rfl

theorem setGeneration_issued (s : State) (g : CpuGeneration) (t : String) :
    (s.setGeneration g t).issued = s.issued := rfl

theorem switchModel_calls (st : Nat) (s : State) : (switchModel st s).calls = s.calls := by
  simp only [switchModel, apply_ite State.calls, setGeneration_calls, ite_self]

theorem switchModel_issued (st : Nat) (s : State) : (switchModel st s).issued = s.issued := by
  simp only [switchModel, apply_ite State.issued, setGeneration_issued, ite_self]

/-- The two ways through `parseCPUID`: the early return of line 48, or lines
50-144. -/
theorem parseCPUID_cases (hw : Cpuid) (s : State) :
    (((parseCPUID.detect hw s).cpuVendor ≠ CpuVendor.Intel
        ∨ (parseCPUID.detect hw s).cpuMaxLevel < 1)
      ∧ parseCPUID hw s = parseCPUID.detect hw s)
    ∨ ((parseCPUID.detect hw s).cpuVendor = CpuVendor.Intel
      ∧ 1 ≤ (parseCPUID.detect hw s).cpuMaxLevel
      ∧ parseCPUID hw s =
        if CpuVersion.family ((hw 1 0).eax % 2 ^ 32) = 6 then
          switchModel (CpuVersion.stepping ((hw 1 0).eax % 2 ^ 32))
            (parseCPUID.version hw (parseCPUID.detect hw s))
        else parseCPUID.version hw (parseCPUID.detect hw s)) := by
  by_cases g : (parseCPUID.detect hw s).cpuVendor ≠ CpuVendor.Intel
      ∨ (parseCPUID.detect hw s).cpuMaxLevel < 1
  · left
    refine ⟨g, ?_⟩
    simp only [parseCPUID, g, if_true]
  · right
    have hv : (parseCPUID.detect hw s).cpuVendor = CpuVendor.Intel := by
      by_contra hc
      exact g (Or.inl hc)
    have hl : 1 ≤ (parseCPUID.detect hw s).cpuMaxLevel := by
      by_contra hc
      exact g (Or.inr (by omega))
    have hd := parseCPUID_detect hw s
    exact ⟨hv, hl, (parseCPUID_of_guard hw s (hd.1.trans hv) (by rw [hd.2.1]; exact hl)).2⟩

theorem supported_one_of_le (s : State) (h : 1 ≤ s.cpuMaxLevel) : supported s 1 = true := by
  rw [supported_one]
  exact decide_eq_true h

/-! ## Generation and text after the `switch` -/

/-- A property of both branches holds of the conditional. -/
theorem State.ite_rec {P : State → Prop} {c : Prop} [Decidable c] {a b : State}
    (ha : P a) (hb : P b) : P (if c then a else b) := by
  split
  · exact ha
  · exact hb

theorem switchModel_classify (st : Nat) (s : State) :
    (switchModel st s).cpuGeneration = specClassify 6 s.cpuModel st := by
  unfold specClassify
  by_cases h : s.cpuModel = 0x8E ∨ s.cpuModel = 0x9E
  · rw [switchModel_shared st s h, if_pos rfl, if_pos h]
  · rw [if_pos rfl, if_neg h]
    exact switchModel_table st s (fun e => h (Or.inl e)) (fun e => h (Or.inr e))

/-- The `switch` leaves the text that names the generation it sets, when the
text was "Unknown" before. -/
theorem switchModel_name (st : Nat) (s : State) (h : s.cpuGenerationText = "Unknown") :
    generationName (switchModel st s).cpuGeneration
      = some (switchModel st s).cpuGenerationText := by
  unfold switchModel
  repeat' refine State.ite_rec (P := fun t =>
    generationName t.cpuGeneration = some t.cpuGenerationText) ?_ ?_
  all_goals first | rfl | (show some "Unknown" = some s.cpuGenerationText; rw [h])

/-- The text after the `switch` depends on `cpuModel`, the stepping and the
text before. -/
theorem switchModel_text_congr (st : Nat) (s t : State) (hm : s.cpuModel = t.cpuModel)
    (ht : s.cpuGenerationText = t.cpuGenerationText) :
    (switchModel st s).cpuGenerationText = (switchModel st t).cpuGenerationText := by
  simp only [switchModel, apply_ite State.cpuGenerationText, setGeneration_cpuGenerationText,
    hm, ht]

theorem computedModel_congr (w v : Nat) (hf : CpuVersion.family w = CpuVersion.family v)
    (hef : CpuVersion.extendedFamily w = CpuVersion.extendedFamily v)
    (hm : CpuVersion.model w = CpuVersion.model v)
    (hem : CpuVersion.extendedModel w = CpuVersion.extendedModel v) :
    computedFamily w = computedFamily v ∧ computedModel w = computedModel v := by
  simp only [computedModel, computedFamily, hf, hef, hm, hem, and_self]

/-- The generation after a run of `parseCPUID` that passes the guard of line 47. -/
theorem parseCPUID_cpuGeneration_of_guard (hw : Cpuid) (s : State)
    (hv : (parseCPUID hw s).cpuVendor = CpuVendor.Intel)
    (hl : 1 ≤ (parseCPUID hw s).cpuMaxLevel) :
    (parseCPUID hw s).cpuGeneration =
      if CpuVersion.family ((hw 1 0).eax % 2 ^ 32) = 6 then
        specClassify 6 (computedModel ((hw 1 0).eax % 2 ^ 32))
          (CpuVersion.stepping ((hw 1 0).eax % 2 ^ 32))
      else s.cpuGeneration := by
  obtain ⟨hl', he⟩ := parseCPUID_of_guard hw s hv hl
  have hm : (parseCPUID.version hw (parseCPUID.detect hw s)).cpuModel
      = computedModel ((hw 1 0).eax % 2 ^ 32) := by
    unfold State.cpuModel
    rw [version_mem hw _ hl']
    simp only [reduceCtorEq, if_false, if_true]
  rw [he]
  simp only [apply_ite State.cpuGeneration, switchModel_classify, hm, version_cpuGeneration,
    detect_cpuGeneration]

/-- The text after a run of `parseCPUID` that passes the guard of line 47. -/
theorem parseCPUID_cpuGenerationText_of_guard (hw : Cpuid) (s : State)
    (hv : (parseCPUID hw s).cpuVendor = CpuVendor.Intel)
    (hl : 1 ≤ (parseCPUID hw s).cpuMaxLevel) :
    ∃ v : State, v.cpuModel = computedModel ((hw 1 0).eax % 2 ^ 32)
      ∧ v.cpuGenerationText = s.cpuGenerationText
      ∧ (parseCPUID hw s).cpuGenerationText =
        if CpuVersion.family ((hw 1 0).eax % 2 ^ 32) = 6 then
          (switchModel (CpuVersion.stepping ((hw 1 0).eax % 2 ^ 32)) v).cpuGenerationText
        else s.cpuGenerationText := by
  obtain ⟨hl', he⟩ := parseCPUID_of_guard hw s hv hl
  refine ⟨parseCPUID.version hw (parseCPUID.detect hw s), ?_, ?_, ?_⟩
  · unfold State.cpuModel
    rw [version_mem hw _ hl']
    simp only [reduceCtorEq, if_false, if_true]
  · rw [version_cpuGenerationText, detect_cpuGenerationText]
  · rw [he]
    simp only [apply_ite State.cpuGenerationText, version_cpuGenerationText,
      detect_cpuGenerationText]

/-- Lines 37-44 use the hardware at the leaves 0 and `0x80000000` only. -/
theorem detect_congr (hw hw' : Cpuid) (s : State) (h0 : hw' 0 0 = hw 0 0)
    (h1 : hw' 0x80000000 0 = hw 0x80000000 0) :
    parseCPUID.detect hw' s = parseCPUID.detect hw s := by
  simp only [parseCPUID.detect, getCpuid, getCpuid.regs, h0, h1]

/-! ## Claims about the generation and the early return -/

/-- C11, as stated without a start state, fails: line 67 has no `else`, so a
version word whose base family is not 6 leaves `cpuGeneration` as it was.  A
second run of `parseCPUID`, started in the state a first run left on a Skylake
word, decodes `0x00040FE9` (base family 15, model `0x4E`, stepping 9) and ends
with Skylake, where `specClassify` of these three values is Unknown. -/
theorem parseCPUID_generation_counterexample :
    (parseCPUID (intelHw 0x16 0x80000008 0x000406E9) initial).cpuGeneration
        = CpuGeneration.Skylake
    ∧ (parseCPUID (intelHw 0x16 0x80000008 0x00040FE9)
        (parseCPUID (intelHw 0x16 0x80000008 0x000406E9) initial)).cpuVendor = CpuVendor.Intel
    ∧ 1 ≤ (parseCPUID (intelHw 0x16 0x80000008 0x00040FE9)
        (parseCPUID (intelHw 0x16 0x80000008 0x000406E9) initial)).cpuMaxLevel
    ∧ CpuVersion.family 0x00040FE9 = 15
    ∧ (parseCPUID (intelHw 0x16 0x80000008 0x00040FE9)
        (parseCPUID (intelHw 0x16 0x80000008 0x000406E9) initial)).cpuModel = 0x4E
    ∧ CpuVersion.stepping 0x00040FE9 = 9
    ∧ specClassify 15 0x4E 9 = CpuGeneration.Unknown
    ∧ (parseCPUID (intelHw 0x16 0x80000008 0x00040FE9)
        (parseCPUID (intelHw 0x16 0x80000008 0x000406E9) initial)).cpuGeneration
        = CpuGeneration.Skylake
    ∧ (parseCPUID (intelHw 0x16 0x80000008 0x00040FE9)
        (parseCPUID (intelHw 0x16 0x80000008 0x000406E9) initial)).cpuGeneration
        ≠ CpuGeneration.Unknown := by
  decide

/-- C11, amended: in a run of `parseCPUID` that starts with `cpuGeneration`
Unknown (as the program's initial state has it) and decodes the version word
`w`, `cpuGeneration` is `specClassify` of the base family field, the computed
`cpuModel` and the stepping field; when the base family field is not 6 it is
Unknown. -/
theorem parseCPUID_generation_function (hw : Cpuid) (s : State) (w : Nat)
    (hg : s.cpuGeneration = CpuGeneration.Unknown)
    (hv : (parseCPUID hw s).cpuVendor = CpuVendor.Intel)
    (hl : 1 ≤ (parseCPUID hw s).cpuMaxLevel)
    (hw1 : (hw 1 0).eax % 2 ^ 32 = w) :
    (parseCPUID hw s).cpuGeneration
        = specClassify (CpuVersion.family w) (parseCPUID hw s).cpuModel (CpuVersion.stepping w)
    ∧ (CpuVersion.family w ≠ 6 → (parseCPUID hw s).cpuGeneration = CpuGeneration.Unknown) := by
  have hG := parseCPUID_cpuGeneration_of_guard hw s hv hl
  have hM := parseCPUID_cpuModel_of_guard hw s hv hl
  rw [hw1] at hG hM
  rw [hG, hM, hg]
  constructor
  · by_cases hf : CpuVersion.family w = 6
    · rw [if_pos hf, hf]
    · rw [if_neg hf]
      unfold specClassify
      rw [if_neg hf]
  · intro hf
    rw [if_neg hf]

/-- C11 amended, at the version words `0x00040FE9` (base family 15, model
`0x4E`) and `0x000405E9` (base family 5, base model `0xE`, extended model 4),
both from the initial state: Unknown. -/
theorem parseCPUID_generation_function_witness :
    initial.cpuGeneration = CpuGeneration.Unknown
    ∧ (parseCPUID (intelHw 0x16 0x80000008 0x00040FE9) initial).cpuVendor = CpuVendor.Intel
    ∧ 1 ≤ (parseCPUID (intelHw 0x16 0x80000008 0x00040FE9) initial).cpuMaxLevel
    ∧ CpuVersion.family 0x00040FE9 = 15
    ∧ (parseCPUID (intelHw 0x16 0x80000008 0x00040FE9) initial).cpuModel = 0x4E
    ∧ (parseCPUID (intelHw 0x16 0x80000008 0x00040FE9) initial).cpuGeneration
        = CpuGeneration.Unknown
    ∧ (parseCPUID (intelHw 0x16 0x80000008 0x000405E9) initial).cpuGeneration
        = CpuGeneration.Unknown :=
  ⟨rfl, by decide, by decide, by decide, by decide,
   (parseCPUID_generation_function (intelHw 0x16 0x80000008 0x00040FE9) initial 0x00040FE9 rfl
      (by decide) (by decide) (by decide)).2 (by decide),
   (parseCPUID_generation_function (intelHw 0x16 0x80000008 0x000405E9) initial 0x000405E9 rfl
      (by decide) (by decide) (by decide)).2 (by decide)⟩

/-- C12: when `parseCPUID`, run from the initial state, ends with a vendor
other than Intel or with `cpuMaxLevel` below 1, then `cpuFamily`, `cpuModel`
and `cpuStepping` are 0, `cpuGeneration` is Unknown and the text is "Unknown";
and the final state is the same on any hardware that answers the leaves 0 and
`0x80000000` alike. -/
theorem parseCPUID_early_return (hw : Cpuid)
    (h : (parseCPUID hw initial).cpuVendor ≠ CpuVendor.Intel
      ∨ (parseCPUID hw initial).cpuMaxLevel < 1) :
    (parseCPUID hw initial).cpuFamily = 0
    ∧ (parseCPUID hw initial).cpuModel = 0
    ∧ (parseCPUID hw initial).cpuStepping = 0
    ∧ (parseCPUID hw initial).cpuGeneration = CpuGeneration.Unknown
    ∧ (parseCPUID hw initial).cpuGenerationText = "Unknown"
    ∧ (∀ hw' : Cpuid, hw' 0 0 = hw 0 0 → hw' 0x80000000 0 = hw 0x80000000 0 →
        parseCPUID hw' initial = parseCPUID hw initial) := by
  have hd := parseCPUID_detect hw initial
  rw [hd.1, hd.2.1] at h
  have he : parseCPUID hw initial = parseCPUID.detect hw initial := by
    rcases parseCPUID_cases hw initial with ⟨_, e⟩ | ⟨hv, hl, _⟩
    · exact e
    · rcases h with h | h
      · exact absurd hv h
      · omega
  refine ⟨?_, ?_, ?_, ?_, ?_, ?_⟩
  · rw [he]
    unfold State.cpuFamily
    rw [detect_mem]
    simp only [reduceCtorEq, if_false, parseCPUID.b, parseCPUID.c, parseCPUID.d]
    rfl
  · rw [he]
    unfold State.cpuModel
    rw [detect_mem]
    simp only [reduceCtorEq, if_false, parseCPUID.b, parseCPUID.c, parseCPUID.d]
    rfl
  · rw [he]
    unfold State.cpuStepping
    rw [detect_mem]
    simp only [reduceCtorEq, if_false, parseCPUID.b, parseCPUID.c, parseCPUID.d]
    rfl
  · rw [he, detect_cpuGeneration]
    rfl
  · rw [he, detect_cpuGenerationText]
    rfl
  · intro hw' h0 h1
    have hc := detect_congr hw hw' initial h0 h1
    rw [← hc] at h
    rcases parseCPUID_cases hw' initial with ⟨_, e⟩ | ⟨hv, hl, _⟩
    · rw [e, he, hc]
    · rcases h with h | h
      · exact absurd hv h
      · omega

/-- C12, on a processor with the AMD signature, maximum leaf `0x10` and a
leaf 1 that would decode to Skylake, and on an Intel processor reporting
maximum leaf 0. -/
theorem parseCPUID_early_return_witness :
    ((parseCPUID (amdHw 0x10 0x8000001F 0x000406E9) initial).cpuVendor ≠ CpuVendor.Intel
      ∨ (parseCPUID (amdHw 0x10 0x8000001F 0x000406E9) initial).cpuMaxLevel < 1)
    ∧ (parseCPUID (amdHw 0x10 0x8000001F 0x000406E9) initial).cpuVendor = CpuVendor.AMD
    ∧ (parseCPUID (amdHw 0x10 0x8000001F 0x000406E9) initial).cpuFamily = 0
    ∧ (parseCPUID (amdHw 0x10 0x8000001F 0x000406E9) initial).cpuGeneration
        = CpuGeneration.Unknown
    ∧ (parseCPUID (intelHw 0 0x80000008 0x000406E9) initial).cpuModel = 0 :=
  ⟨Or.inl (by decide), by decide,
   (parseCPUID_early_return (amdHw 0x10 0x8000001F 0x000406E9) (Or.inl (by decide))).1,
   (parseCPUID_early_return (amdHw 0x10 0x8000001F 0x000406E9) (Or.inl (by decide))).2.2.2.1,
   (parseCPUID_early_return (intelHw 0 0x80000008 0x000406E9) (Or.inr (by decide))).2.1⟩

/-! ## End-to-end claims -/

/-- The guard of line 47 passes on hardware that answers leaf 0 with the Intel
signature and a maximum of at least 1. -/
theorem guard_of_intel (hw : Cpuid) (s : State)
    (hb : (hw 0 0).ebx % 2 ^ 32 = signature_INTEL_ebx)
    (hc : (hw 0 0).ecx % 2 ^ 32 = signature_INTEL_ecx)
    (hd : (hw 0 0).edx % 2 ^ 32 = signature_INTEL_edx)
    (hl : 1 ≤ (hw 0 0).eax % 2 ^ 32) :
    (parseCPUID hw s).cpuVendor = CpuVendor.Intel ∧ 1 ≤ (parseCPUID hw s).cpuMaxLevel := by
  have h := parseCPUID_detect hw s
  rw [h.1, h.2.1, detect_cpuVendor, if_pos ⟨hb, hc, hd⟩]
  refine ⟨rfl, ?_⟩
  unfold State.cpuMaxLevel
  rw [detect_mem]
  simp only [reduceCtorEq, if_false, if_true, parseCPUID.b, parseCPUID.c, parseCPUID.d]
  exact hl

/-- The calls and the executed instructions of a run from the initial state. -/
theorem parseCPUID_trace (hw : Cpuid) :
    (((parseCPUID.detect hw initial).cpuVendor ≠ CpuVendor.Intel
        ∨ (parseCPUID.detect hw initial).cpuMaxLevel < 1)
      ∧ (parseCPUID hw initial).calls = [(0, 0), (0x80000000, 0)]
      ∧ (parseCPUID hw initial).issued = [(0, 0), (0x80000000, 0)])
    ∨ ((parseCPUID.detect hw initial).cpuVendor = CpuVendor.Intel
      ∧ 1 ≤ (parseCPUID.detect hw initial).cpuMaxLevel
      ∧ (parseCPUID hw initial).calls = [(0, 0), (0x80000000, 0), (1, 0)]
      ∧ (parseCPUID hw initial).issued = [(0, 0), (0x80000000, 0), (1, 0)]) := by
  have hi : initial.cpuMaxLevelExt ≥ 0x80000000 := by decide
  have hc : (parseCPUID.detect hw initial).calls = [(0, 0), (0x80000000, 0)] := by
    rw [detect_calls]
    rfl
  have hs : (parseCPUID.detect hw initial).issued = [(0, 0), (0x80000000, 0)] := by
    rw [detect_issued, if_pos hi]
    rfl
  rcases parseCPUID_cases hw initial with ⟨g, e⟩ | ⟨hv, hl, e⟩
  · left
    rw [e]
    exact ⟨g, hc, hs⟩
  · right
    refine ⟨hv, hl, ?_, ?_⟩
    · rw [e]
      simp only [apply_ite State.calls, switchModel_calls, ite_self, version_calls, hc]
      rfl
    · rw [e]
      simp only [apply_ite State.issued, switchModel_issued, ite_self,
        version_issued hw _ hl, hs]
      rfl

/-- C14: on hardware that answers leaf 0 with the Intel signature and an `eax`
word of at least 1, `parseCPUID` run from the initial state executes `cpuid`
for the leaves 0, `0x80000000` and 1, and with `w` the `eax` word of leaf 1:
`cpuFamily` is the base family plus, when that is 15, the extended family;
`cpuModel` is the base model, OR-ed with the extended model shifted by 4 when
`cpuFamily` is 15 or 6; `cpuStepping` is the stepping field; `cpuGeneration`
is `specClassify` of base family, `cpuModel` and stepping; and any other such
hardware with the same `w` ends with the same five values. -/
theorem parseCPUID_intel (hw : Cpuid) (w : Nat)
    (hb : (hw 0 0).ebx % 2 ^ 32 = signature_INTEL_ebx)
    (hc : (hw 0 0).ecx % 2 ^ 32 = signature_INTEL_ecx)
    (hd : (hw 0 0).edx % 2 ^ 32 = signature_INTEL_edx)
    (hl : 1 ≤ (hw 0 0).eax % 2 ^ 32)
    (hw1 : (hw 1 0).eax % 2 ^ 32 = w) :
    (parseCPUID hw initial).issued = [(0, 0), (0x80000000, 0), (1, 0)]
    ∧ (parseCPUID hw initial).cpuFamily
        = (if CpuVersion.family w = 15 then 15 + CpuVersion.extendedFamily w
          else CpuVersion.family w)
    ∧ (parseCPUID hw initial).cpuModel
        = (if (parseCPUID hw initial).cpuFamily = 15 ∨ (parseCPUID hw initial).cpuFamily = 6
          then CpuVersion.model w ||| (CpuVersion.extendedModel w <<< 4)
          else CpuVersion.model w)
    ∧ (parseCPUID hw initial).cpuStepping = CpuVersion.stepping w
    ∧ (parseCPUID hw initial).cpuGeneration
        = specClassify (CpuVersion.family w) (parseCPUID hw initial).cpuModel
            (CpuVersion.stepping w)
    ∧ (∀ hw' : Cpuid,
        (hw' 0 0).ebx % 2 ^ 32 = signature_INTEL_ebx →
        (hw' 0 0).ecx % 2 ^ 32 = signature_INTEL_ecx →
        (hw' 0 0).edx % 2 ^ 32 = signature_INTEL_edx →
        1 ≤ (hw' 0 0).eax % 2 ^ 32 →
        (hw' 1 0).eax % 2 ^ 32 = w →
        (parseCPUID hw' initial).cpuFamily = (parseCPUID hw initial).cpuFamily
        ∧ (parseCPUID hw' initial).cpuModel = (parseCPUID hw initial).cpuModel
        ∧ (parseCPUID hw' initial).cpuStepping = (parseCPUID hw initial).cpuStepping
        ∧ (parseCPUID hw' initial).cpuGeneration = (parseCPUID hw initial).cpuGeneration
        ∧ (parseCPUID hw' initial).cpuGenerationText
            = (parseCPUID hw initial).cpuGenerationText) := by
  obtain ⟨hv, hm⟩ := guard_of_intel hw initial hb hc hd hl
  have hF := parseCPUID_cpuFamily_of_guard hw initial hv hm
  have hM := parseCPUID_cpuModel_of_guard hw initial hv hm
  have hS := parseCPUID_cpuStepping_of_guard hw initial hv hm
  have hG := parseCPUID_cpuGeneration_of_guard hw initial hv hm
  rw [hw1] at hF hM hS hG
  refine ⟨?_, ?_, ?_, hS, ?_, ?_⟩
  · rcases parseCPUID_trace hw with ⟨g, _, _⟩ | ⟨_, _, _, hi⟩
    · have h := parseCPUID_detect hw initial
      rw [h.1] at hv
      rw [h.2.1] at hm
      rcases g with g | g
      · exact absurd hv g
      · omega
    · exact hi
  · rw [hF, computedFamily_eq]
  · rw [hM, hF, computedModel_eq]
  · rw [hG, hM]
    have hi : initial.cpuGeneration = CpuGeneration.Unknown := rfl
    rw [hi]
    by_cases hf : CpuVersion.family w = 6
    · rw [if_pos hf, hf]
    · rw [if_neg hf]
      unfold specClassify
      rw [if_neg hf]
  · intro hw' hb' hc' hd' hl' hw1'
    obtain ⟨hv', hm'⟩ := guard_of_intel hw' initial hb' hc' hd' hl'
    have hF' := parseCPUID_cpuFamily_of_guard hw' initial hv' hm'
    have hM' := parseCPUID_cpuModel_of_guard hw' initial hv' hm'
    have hS' := parseCPUID_cpuStepping_of_guard hw' initial hv' hm'
    have hG' := parseCPUID_cpuGeneration_of_guard hw' initial hv' hm'
    rw [hw1'] at hF' hM' hS' hG'
    refine ⟨by rw [hF, hF'], by rw [hM, hM'], by rw [hS, hS'], by rw [hG, hG'], ?_⟩
    obtain ⟨v, hvm, hvt, et⟩ := parseCPUID_cpuGenerationText_of_guard hw initial hv hm
    obtain ⟨v', hvm', hvt', et'⟩ := parseCPUID_cpuGenerationText_of_guard hw' initial hv' hm'
    rw [hw1] at hvm et
    rw [hw1'] at hvm' et'
    rw [et, et', switchModel_text_congr _ v' v (hvm'.trans hvm.symm) (hvt'.trans hvt.symm)]

/-- C14, at the version word `0x000406E9`: family 6, model `0x4E`, stepping 9,
Skylake. -/
theorem parseCPUID_intel_witness :
    ((intelHw 0x16 0x80000008 0x000406E9) 0 0).ebx % 2 ^ 32 = signature_INTEL_ebx
    ∧ 1 ≤ ((intelHw 0x16 0x80000008 0x000406E9) 0 0).eax % 2 ^ 32
    ∧ ((intelHw 0x16 0x80000008 0x000406E9) 1 0).eax % 2 ^ 32 = 0x000406E9
    ∧ (parseCPUID (intelHw 0x16 0x80000008 0x000406E9) initial).issued
        = [(0, 0), (0x80000000, 0), (1, 0)]
    ∧ (parseCPUID (intelHw 0x16 0x80000008 0x000406E9) initial).cpuFamily = 6
    ∧ (parseCPUID (intelHw 0x16 0x80000008 0x000406E9) initial).cpuModel = 0x4E
    ∧ (parseCPUID (intelHw 0x16 0x80000008 0x000406E9) initial).cpuStepping = 9
    ∧ (parseCPUID (intelHw 0x16 0x80000008 0x000406E9) initial).cpuGeneration
        = CpuGeneration.Skylake :=
  ⟨by decide, by decide, by decide,
   (parseCPUID_intel (intelHw 0x16 0x80000008 0x000406E9) 0x000406E9 (by decide) (by decide)
      (by decide) (by decide) (by decide)).1,
   (parseCPUID_intel (intelHw 0x16 0x80000008 0x000406E9) 0x000406E9 (by decide) (by decide)
      (by decide) (by decide) (by decide)).2.1,
   by decide,
   (parseCPUID_intel (intelHw 0x16 0x80000008 0x000406E9) 0x000406E9 (by decide) (by decide)
      (by decide) (by decide) (by decide)).2.2.2.1,
   by decide⟩

/-- C15: `parseCPUID` run from the initial state calls `getCpuid` for
`(0, 0)` and `(0x80000000, 0)`, then for `(1, 0)` exactly when the vendor is
Intel and the `eax` word of leaf 0 is at least 1, and makes no other call; and
`cpuid` is executed for every one of these calls. -/
theorem parseCPUID_calls (hw : Cpuid) :
    (parseCPUID hw initial).calls =
      (if (parseCPUID hw initial).cpuVendor = CpuVendor.Intel ∧ 1 ≤ (hw 0 0).eax % 2 ^ 32 then
        [(0, 0), (0x80000000, 0), (1, 0)]
      else [(0, 0), (0x80000000, 0)])
    ∧ (parseCPUID hw initial).issued = (parseCPUID hw initial).calls := by
  have h := parseCPUID_detect hw initial
  have hm : (parseCPUID.detect hw initial).cpuMaxLevel = (hw 0 0).eax % 2 ^ 32 := by
    unfold State.cpuMaxLevel
    rw [detect_mem]
    simp only [reduceCtorEq, if_false, if_true, parseCPUID.b, parseCPUID.c, parseCPUID.d]
  rw [h.1, ← hm]
  rcases parseCPUID_trace hw with ⟨g, hc, hi⟩ | ⟨hv, hl, hc, hi⟩
  · have hn : ¬ ((parseCPUID.detect hw initial).cpuVendor = CpuVendor.Intel
        ∧ 1 ≤ (parseCPUID.detect hw initial).cpuMaxLevel) := by
      rintro ⟨a, b⟩
      rcases g with g | g
      · exact g a
      · omega
    rw [if_neg hn, hc, hi]
    exact ⟨rfl, rfl⟩
  · rw [if_pos ⟨hv, hl⟩, hc, hi]
    exact ⟨rfl, rfl⟩

/-- C15, on an Intel processor with maximum leaf `0x16` (three calls), on an
Intel processor with maximum leaf 0 and on an AMD processor (two calls). -/
theorem parseCPUID_calls_witness :
    (parseCPUID (intelHw 0x16 0x80000008 0x000406E9) initial).calls
        = [(0, 0), (0x80000000, 0), (1, 0)]
    ∧ (parseCPUID (intelHw 0x16 0x80000008 0x000406E9) initial).issued
        = (parseCPUID (intelHw 0x16 0x80000008 0x000406E9) initial).calls
    ∧ (parseCPUID (intelHw 0 0x80000008 0x000406E9) initial).calls
        = [(0, 0), (0x80000000, 0)]
    ∧ (parseCPUID (amdHw 0x10 0x8000001F 0x000406E9) initial).issued
        = [(0, 0), (0x80000000, 0)] :=
  ⟨by decide, (parseCPUID_calls (intelHw 0x16 0x80000008 0x000406E9)).2, by decide,
   by decide⟩

/-! ## Claims about the extended and the reserved fields -/

/-- C16, as stated, fails: the version words `0x00040FE9` and `0x00140FE9`
agree on the base family (15), the base model (`0xE`) and the extended model
(4) and differ in the extended family only (0 and 1), yet `cpuModel` is `0x4E`
for the first and `0xE` for the second. -/
theorem cpuModel_extendedFamily_counterexample :
    CpuVersion.family 0x00040FE9 = CpuVersion.family 0x00140FE9
    ∧ CpuVersion.model 0x00040FE9 = CpuVersion.model 0x00140FE9
    ∧ CpuVersion.extendedModel 0x00040FE9 = CpuVersion.extendedModel 0x00140FE9
    ∧ (parseCPUID (intelHw 0x16 0x80000008 0x00040FE9) initial).cpuModel = 0x4E
    ∧ (parseCPUID (intelHw 0x16 0x80000008 0x00140FE9) initial).cpuModel = 0xE
    ∧ (parseCPUID (intelHw 0x16 0x80000008 0x00040FE9) initial).cpuModel
      ≠ (parseCPUID (intelHw 0x16 0x80000008 0x00140FE9) initial).cpuModel := by
  decide

/-- C16, amended: two runs of `parseCPUID` that decode version words agreeing
on the base family, base model and extended model fields and, when the base
family is 15, on whether the extended family field is 0, compute the same
`cpuModel`. -/
theorem cpuModel_congr (hw hw' : Cpuid) (s s' : State) (w w' : Nat)
    (hv : (parseCPUID hw s).cpuVendor = CpuVendor.Intel)
    (hl : 1 ≤ (parseCPUID hw s).cpuMaxLevel)
    (hw1 : (hw 1 0).eax % 2 ^ 32 = w)
    (hv' : (parseCPUID hw' s').cpuVendor = CpuVendor.Intel)
    (hl' : 1 ≤ (parseCPUID hw' s').cpuMaxLevel)
    (hw1' : (hw' 1 0).eax % 2 ^ 32 = w')
    (hf : CpuVersion.family w = CpuVersion.family w')
    (hm : CpuVersion.model w = CpuVersion.model w')
    (hem : CpuVersion.extendedModel w = CpuVersion.extendedModel w')
    (he : CpuVersion.family w = 15 →
      (CpuVersion.extendedFamily w = 0 ↔ CpuVersion.extendedFamily w' = 0)) :
    (parseCPUID hw s).cpuModel = (parseCPUID hw' s').cpuModel := by
  have hM := parseCPUID_cpuModel_of_guard hw s hv hl
  have hM' := parseCPUID_cpuModel_of_guard hw' s' hv' hl'
  rw [hw1] at hM
  rw [hw1'] at hM'
  rw [hM, hM', computedModel_eq, computedModel_eq, computedFamily_eq, computedFamily_eq,
    ← hf, ← hm, ← hem]
  have hb := family_lt w
  by_cases h15 : CpuVersion.family w = 15
  · have hiff := he h15
    rw [if_pos h15, if_pos h15]
    by_cases h0 : CpuVersion.extendedFamily w = 0
    · rw [h0, hiff.1 h0]
    · have h0' : CpuVersion.extendedFamily w' ≠ 0 := fun e => h0 (hiff.2 e)
      rw [if_neg (by omega), if_neg (by omega)]
  · rw [if_neg h15, if_neg h15]

/-- C16 amended, at `0x00140FE9` and `0x00240FE9` (base family 15, extended
families 1 and 2): `cpuModel` is `0xE` both times. -/
theorem cpuModel_congr_witness :
    (parseCPUID (intelHw 0x16 0x80000008 0x00140FE9) initial).cpuVendor = CpuVendor.Intel
    ∧ 1 ≤ (parseCPUID (intelHw 0x16 0x80000008 0x00140FE9) initial).cpuMaxLevel
    ∧ CpuVersion.family 0x00140FE9 = 15
    ∧ CpuVersion.extendedFamily 0x00140FE9 = 1
    ∧ CpuVersion.extendedFamily 0x00240FE9 = 2
    ∧ (parseCPUID (intelHw 0x16 0x80000008 0x00140FE9) initial).cpuModel = 0xE
    ∧ (parseCPUID (intelHw 0x16 0x80000008 0x00140FE9) initial).cpuModel
      = (parseCPUID (intelHw 0x16 0x80000008 0x00240FE9) initial).cpuModel :=
  ⟨by decide, by decide, by decide, by decide, by decide, by decide,
   cpuModel_congr (intelHw 0x16 0x80000008 0x00140FE9)
     (intelHw 0x16 0x80000008 0x00240FE9) initial initial 0x00140FE9 0x00240FE9
     (by decide) (by decide) (by decide) (by decide) (by decide) (by decide) (by decide)
     (by decide) (by decide) (by decide)⟩

/-- C18: in a run of `parseCPUID` that decodes the version word `w`, `cpuModel`
is the base model OR-ed with the extended model shifted by 4 when the base
family is 6, or is 15 with extended family 0, and the base model alone in every
other case; `cpuFamily` is 6 exactly when the base family is 6; and for base
family 15 with a non-zero extended family, `cpuFamily` is between 16 and 270
and `cpuModel` is the base model, below 16. -/
theorem cpuModel_incorporation (hw : Cpuid) (s : State) (w : Nat)
    (hv : (parseCPUID hw s).cpuVendor = CpuVendor.Intel)
    (hl : 1 ≤ (parseCPUID hw s).cpuMaxLevel)
    (hw1 : (hw 1 0).eax % 2 ^ 32 = w) :
    ((CpuVersion.family w = 6
        ∨ (CpuVersion.family w = 15 ∧ CpuVersion.extendedFamily w = 0)) →
      (parseCPUID hw s).cpuModel
        = CpuVersion.model w ||| (CpuVersion.extendedModel w <<< 4))
    ∧ (¬ (CpuVersion.family w = 6
        ∨ (CpuVersion.family w = 15 ∧ CpuVersion.extendedFamily w = 0)) →
      (parseCPUID hw s).cpuModel = CpuVersion.model w)
    ∧ ((parseCPUID hw s).cpuFamily = 6 ↔ CpuVersion.family w = 6)
    ∧ (CpuVersion.family w = 15 → CpuVersion.extendedFamily w ≠ 0 →
        16 ≤ (parseCPUID hw s).cpuFamily ∧ (parseCPUID hw s).cpuFamily ≤ 270
        ∧ (parseCPUID hw s).cpuModel = CpuVersion.model w
        ∧ (parseCPUID hw s).cpuModel < 16) := by
  have hF := parseCPUID_cpuFamily_of_guard hw s hv hl
  have hM := parseCPUID_cpuModel_of_guard hw s hv hl
  rw [hw1] at hF hM
  rw [computedModel_eq, computedFamily_eq] at hM
  rw [computedFamily_eq] at hF
  have hb := family_lt w
  have he := extendedFamily_lt w
  have hm := model_lt w
  rw [hM, hF]
  refine ⟨?_, ?_, ?_, ?_⟩
  · rintro (h6 | ⟨h15, h0⟩)
    · rw [if_neg (show ¬ CpuVersion.family w = 15 by omega), if_pos (Or.inr h6)]
    · rw [if_pos h15, h0, if_pos (Or.inl rfl)]
  · intro h
    by_cases h15 : CpuVersion.family w = 15
    · have h0 : CpuVersion.extendedFamily w ≠ 0 := fun e => h (Or.inr ⟨h15, e⟩)
      rw [if_pos h15, if_neg (by omega)]
    · have h6 : CpuVersion.family w ≠ 6 := fun e => h (Or.inl e)
      rw [if_neg h15, if_neg (by omega)]
  · by_cases h15 : CpuVersion.family w = 15
    · rw [if_pos h15]
      omega
    · rw [if_neg h15]
  · intro h15 h0
    rw [if_pos h15, if_neg (by omega)]
    omega

/-- C18, at `0x00040FE9` (base family 15, extended family 0: model `0x4E`)
and `0x00140FE9` (base family 15, extended family 1: family 16, model `0xE`). -/
theorem cpuModel_incorporation_witness :
    (parseCPUID (intelHw 0x16 0x80000008 0x00040FE9) initial).cpuVendor = CpuVendor.Intel
    ∧ 1 ≤ (parseCPUID (intelHw 0x16 0x80000008 0x00040FE9) initial).cpuMaxLevel
    ∧ (parseCPUID (intelHw 0x16 0x80000008 0x00040FE9) initial).cpuModel = 0x4E
    ∧ (parseCPUID (intelHw 0x16 0x80000008 0x00140FE9) initial).cpuFamily = 16
    ∧ (parseCPUID (intelHw 0x16 0x80000008 0x00140FE9) initial).cpuModel = 0xE :=
  ⟨by decide, by decide,
   (cpuModel_incorporation (intelHw 0x16 0x80000008 0x00040FE9) initial 0x00040FE9
      (by decide) (by decide) (by decide)).1 (Or.inr ⟨by decide, by decide⟩),
   by decide,
   ((cpuModel_incorporation (intelHw 0x16 0x80000008 0x00140FE9) initial 0x00140FE9
      (by decide) (by decide) (by decide)).2.2.2 (by decide) (by decide)).2.2.1⟩

/-- C19: two runs of `parseCPUID` from the same state that decode version
words agreeing on the stepping, model, family, extendedModel and extendedFamily
fields end with the same `cpuFamily`, `cpuModel`, `cpuStepping`,
`cpuGeneration` and text, whatever the type and reserved fields are. -/
theorem parseCPUID_ignores_reserved (hw hw' : Cpuid) (s : State) (w w' : Nat)
    (hv : (parseCPUID hw s).cpuVendor = CpuVendor.Intel)
    (hl : 1 ≤ (parseCPUID hw s).cpuMaxLevel)
    (hw1 : (hw 1 0).eax % 2 ^ 32 = w)
    (hv' : (parseCPUID hw' s).cpuVendor = CpuVendor.Intel)
    (hl' : 1 ≤ (parseCPUID hw' s).cpuMaxLevel)
    (hw1' : (hw' 1 0).eax % 2 ^ 32 = w')
    (hst : CpuVersion.stepping w = CpuVersion.stepping w')
    (hm : CpuVersion.model w = CpuVersion.model w')
    (hf : CpuVersion.family w = CpuVersion.family w')
    (hem : CpuVersion.extendedModel w = CpuVersion.extendedModel w')
    (hef : CpuVersion.extendedFamily w = CpuVersion.extendedFamily w') :
    (parseCPUID hw s).cpuFamily = (parseCPUID hw' s).cpuFamily
    ∧ (parseCPUID hw s).cpuModel = (parseCPUID hw' s).cpuModel
    ∧ (parseCPUID hw s).cpuStepping = (parseCPUID hw' s).cpuStepping
    ∧ (parseCPUID hw s).cpuGeneration = (parseCPUID hw' s).cpuGeneration
    ∧ (parseCPUID hw s).cpuGenerationText = (parseCPUID hw' s).cpuGenerationText := by
  obtain ⟨cF, cM⟩ := computedModel_congr w w' hf hef hm hem
  have hF := parseCPUID_cpuFamily_of_guard hw s hv hl
  have hM := parseCPUID_cpuModel_of_guard hw s hv hl
  have hS := parseCPUID_cpuStepping_of_guard hw s hv hl
  have hG := parseCPUID_cpuGeneration_of_guard hw s hv hl
  have hF' := parseCPUID_cpuFamily_of_guard hw' s hv' hl'
  have hM' := parseCPUID_cpuModel_of_guard hw' s hv' hl'
  have hS' := parseCPUID_cpuStepping_of_guard hw' s hv' hl'
  have hG' := parseCPUID_cpuGeneration_of_guard hw' s hv' hl'
  obtain ⟨v, hvm, hvt, et⟩ := parseCPUID_cpuGenerationText_of_guard hw s hv hl
  obtain ⟨v', hvm', hvt', et'⟩ := parseCPUID_cpuGenerationText_of_guard hw' s hv' hl'
  rw [hw1] at hF hM hS hG hvm et
  rw [hw1'] at hF' hM' hS' hG' hvm' et'
  refine ⟨by rw [hF, hF', cF], by rw [hM, hM', cM], by rw [hS, hS', hst],
    by rw [hG, hG', hf, cM, hst], ?_⟩
  rw [et, et', hf, hst,
    switchModel_text_congr _ v v' (by rw [hvm, hvm', cM]) (hvt.trans hvt'.symm)]

/-- C19, at `0x000406E9` and `0xF004F6E9`, which differ exactly in the type,
reserved1 and reserved2 fields: Skylake both times. -/
theorem parseCPUID_ignores_reserved_witness :
    CpuVersion.type 0xF004F6E9 = 3 ∧ CpuVersion.reserved1 0xF004F6E9 = 3
    ∧ CpuVersion.reserved2 0xF004F6E9 = 15
    ∧ CpuVersion.type 0x000406E9 = 0 ∧ CpuVersion.reserved1 0x000406E9 = 0
    ∧ CpuVersion.reserved2 0x000406E9 = 0
    ∧ (parseCPUID (intelHw 0x16 0x80000008 0xF004F6E9) initial).cpuGeneration
        = CpuGeneration.Skylake
    ∧ (parseCPUID (intelHw 0x16 0x80000008 0x000406E9) initial).cpuGenerationText
        = (parseCPUID (intelHw 0x16 0x80000008 0xF004F6E9) initial).cpuGenerationText :=
  ⟨by decide, by decide, by decide, by decide, by decide, by decide, by decide,
   (parseCPUID_ignores_reserved (intelHw 0x16 0x80000008 0x000406E9)
      (intelHw 0x16 0x80000008 0xF004F6E9) initial 0x000406E9 0xF004F6E9
      (by decide) (by decide) (by decide) (by decide) (by decide) (by decide) (by decide)
      (by decide) (by decide) (by decide) (by decide)).2.2.2.2⟩

/-- C20: after `parseCPUID` run from the initial state, on every hardware, the
text is the name `generationName` gives to `cpuGeneration`, and
`cpuGeneration` is not the sentinel `MaxGeneration`. -/
theorem parseCPUID_generationText (hw : Cpuid) :
    generationName (parseCPUID hw initial).cpuGeneration
        = some (parseCPUID hw initial).cpuGenerationText
    ∧ (parseCPUID hw initial).cpuGeneration ≠ CpuGeneration.MaxGeneration := by
  have key : generationName (parseCPUID hw initial).cpuGeneration
      = some (parseCPUID hw initial).cpuGenerationText := by
    rcases parseCPUID_cases hw initial with ⟨_, e⟩ | ⟨_, _, e⟩
    · rw [e, detect_cpuGeneration, detect_cpuGenerationText]
      rfl
    · rw [e]
      refine State.ite_rec (P := fun t =>
        generationName t.cpuGeneration = some t.cpuGenerationText) ?_ ?_
      · apply switchModel_name
        rw [version_cpuGenerationText, detect_cpuGenerationText]
        rfl
      · show generationName (parseCPUID.version hw (parseCPUID.detect hw initial)).cpuGeneration
          = some (parseCPUID.version hw (parseCPUID.detect hw initial)).cpuGenerationText
        rw [version_cpuGeneration, version_cpuGenerationText, detect_cpuGeneration,
          detect_cpuGenerationText]
        rfl
  refine ⟨key, ?_⟩
  intro h
  rw [h] at key
  exact Option.noConfusion key

/-- C20, at the version word `0x00000661` (family 6, model `0x06`, the default
branch of the `switch`) and at `0x000806E9` (Kaby Lake). -/
theorem parseCPUID_generationText_witness :
    (parseCPUID (intelHw 0x16 0x80000008 0x00000661) initial).cpuGeneration
        = CpuGeneration.Unknown
    ∧ (parseCPUID (intelHw 0x16 0x80000008 0x00000661) initial).cpuGenerationText = "Unknown"
    ∧ generationName (parseCPUID (intelHw 0x16 0x80000008 0x000806E9) initial).cpuGeneration
        = some (parseCPUID (intelHw 0x16 0x80000008 0x000806E9) initial).cpuGenerationText
    ∧ (parseCPUID (intelHw 0x16 0x80000008 0x000806E9) initial).cpuGenerationText
        = "Kaby Lake" :=
  ⟨by decide, by decide, (parseCPUID_generationText (intelHw 0x16 0x80000008 0x000806E9)).1,
   by decide⟩

end CPUIDParser
